import Mathlib

/-!
Coordinator start-up (`cmd/coordinator/run.go`) and package `config`

A shallow embedding of `run` as a function from a description of the outside
world (environment variables, results of the collaborators' constructors, what
arrives on the two channels) to the sequence of calls `run` makes and the way
it ends.  Go strings are Lean strings; the separator `","` is one ASCII byte,
so splitting on bytes and on code points agree.
-/

namespace Marblerun

/-! ## Values -/

/-- Go `error` values that occur in `run`. -/
inductive Error
  /-- A `*strconv.NumError` with `Err = ErrSyntax`. -/
  | numSyntax (fn num : String)
  /-- A `*strconv.NumError` with `Err = ErrRange`. -/
  | numRange (fn num : String)
  /-- An error returned by a collaborator. -/
  | other (msg : String)
  deriving DecidableEq, Repr

/-- A `*zap.Logger`. -/
structure Logger where
  id : Nat
  deriving DecidableEq, Repr

/-- A `quote.Validator`. -/
structure Validator where
  id : Nat
  deriving DecidableEq, Repr

/-- A `quote.Issuer`. -/
structure Issuer where
  id : Nat
  deriving DecidableEq, Repr

/-- A sealer returned by `core.NewAESGCMSealer`. -/
structure Sealer where
  id : Nat
  deriving DecidableEq, Repr

/-- A `*core.Core`. -/
structure Core where
  id : Nat
  deriving DecidableEq, Repr

/-- A `*http.ServeMux`. -/
structure Mux where
  id : Nat
  deriving DecidableEq, Repr

/-- A `*tls.Config`. -/
structure TLSConfig where
  id : Nat
  deriving DecidableEq, Repr

/-! ## Package `config` (`coordinator/config/config.go`) -/

namespace config

/-- The coordinator's address for the gRPC server to listen on. -/
def MeshAddr : String := "EDG_COORDINATOR_MESH_ADDR"

/-- The coordinator's address for the HTTP-REST server to listen on. -/
def ClientAddr : String := "EDG_COORDINATOR_CLIENT_ADDR"

/-- The coordinator's address for the prometheus endpoint server to listen on. -/
def PromAddr : String := "EDG_COORDINATOR_PROMETHEUS_ADDR"

/-- The alternative dns names for the coordinator's certificate. -/
def DNSNames : String := "EDG_COORDINATOR_DNS_NAMES"

/-- The coordinator's file location to store the sealed state. -/
def SealDir : String := "EDG_COORDINATOR_SEAL_DIR"

/-- Enables more verbose logging. -/
def DevMode : String := "EDG_COORDINATOR_DEV_MODE"

/-- The constants `config.go` declares, identifier and value, in file order. -/
def declared : List (String × String) :=
  [("MeshAddr", MeshAddr), ("ClientAddr", ClientAddr), ("PromAddr", PromAddr),
   ("DNSNames", DNSNames), ("SealDir", SealDir), ("DevMode", DevMode)]

/-- The value of the constant `ident` of package `config`, if `config.go` declares it. -/
def lookup (ident : String) : Option String :=
  (declared.find? (fun p => p.1 == ident)).map Prod.snd

/-- The four identifiers `run.go` reads from package `config` for which `config.go`
has no declaration; their values are parameters of the model. -/
structure Undeclared where
  EtcdNodeName : String
  EtcdNamespace : String
  EtcdClusterName : String
  EtcdClusterSize : String
  deriving DecidableEq, Repr

end config

/-- The identifiers of package `config` that `run.go` refers to (lines 27-51), in
the order of the references. -/
def runConfigRefs : List String :=
  ["DevMode", "SealDir", "DNSNames", "ClientAddr", "MeshAddr",
   "EtcdNodeName", "EtcdNamespace", "EtcdClusterName", "EtcdClusterSize"]

/-! ## Standard-library functions `run` calls -/

namespace strings

/-- The pieces of a character sequence between the occurrences of `sep`. -/
def splitChars (sep : Char) : List Char → List (List Char)
  | [] => [[]]
  | c :: cs =>
    if c = sep then [] :: splitChars sep cs
    else
      match splitChars sep cs with
      | [] => [[c]]
      | p :: ps => (c :: p) :: ps

/-- Go `strings.Split(s, sep)` for a one-byte separator: all substrings of `s`
separated by `sep`; a string without `sep` gives the one-element list `[s]`. -/
def Split (s : String) (sep : Char) : List String :=
  (splitChars sep s.toList).map String.mk

/-- Go `strings.Join(elems, sep)`. -/
def Join : List String → String → String
  | [], _ => ""
  | [a], _ => a
  | a :: b :: rest, sep => a ++ sep ++ Join (b :: rest) sep

/-- Go `strings.Count(s, sep)` for a one-byte separator. -/
def Count (s : String) (sep : Char) : Nat :=
  s.toList.count sep

/-- Go `strings.ContainsRune(s, r)`. -/
def ContainsRune (s : String) (r : Char) : Bool :=
  s.toList.contains r

end strings

namespace strconv

/-- Go `strconv.ParseUint(s, 10, 64)` on the bytes left to read, `n` being the value
read so far and `s0` the whole input: `ErrSyntax` at a byte that is not a decimal digit,
`ErrRange` as soon as the value leaves the range of `uint64`. -/
def parseUint (s0 : String) : List Char → Nat → Except Error Nat
  | [], n => .ok n
  | c :: cs, n =>
    if '0' ≤ c ∧ c ≤ '9' then
      if n ≥ (2 ^ 64 - 1) / 10 + 1 then .error (.numRange "Atoi" s0)
      else if n * 10 + (c.toNat - '0'.toNat) > 2 ^ 64 - 1 then .error (.numRange "Atoi" s0)
      else parseUint s0 cs (n * 10 + (c.toNat - '0'.toNat))
    else .error (.numSyntax "Atoi" s0)

/-- Go `strconv.Atoi(s)` on a platform with 64-bit `int`: an optional sign followed by
one or more decimal digits; `ErrSyntax` otherwise, `ErrRange` outside `[-2^63, 2^63)`. -/
def Atoi (s : String) : Except Error Int :=
  match s.toList with
  | [] => .error (.numSyntax "Atoi" s)
  | c :: cs =>
    let neg := c = '-'
    let ds := if c = '-' ∨ c = '+' then cs else c :: cs
    if ds = [] then .error (.numSyntax "Atoi" s)
    else
      match parseUint s ds 0 with
      | .error err => .error err
      | .ok un =>
        if neg then
          if un > 2 ^ 63 then .error (.numRange "Atoi" s) else .ok (-(un : Int))
        else
          if un ≥ 2 ^ 63 then .error (.numRange "Atoi" s) else .ok (un : Int)

end strconv

namespace os

/-- Go `os.Getenv(key)`: the value of the variable, empty if it is not set. -/
def Getenv (environ : String → Option String) (key : String) : String :=
  (environ key).getD ""

end os

namespace util

/-- Modelled from the spec: `util.MustGetenv` is not among the source files; "Missing
any required value is a fatal startup error", so the call yields the value of a
variable that is set and `none` (the process ends fatally) for one that is not. -/
def MustGetenv (environ : String → Option String) (name : String) : Option String :=
  environ name

end util

/-! ## The outside world -/

/-- The three subsystems `run` launches as goroutines. -/
inductive Subsystem
  /-- The goroutine of `server.RunEtcdServer` (line 69), launched without a channel. -/
  | etcd
  /-- The goroutine of `server.RunClientServer` (line 78), launched without a channel. -/
  | client
  /-- The goroutine of `server.RunMarbleServer` (line 84), launched with `addrChan` and `errChan`. -/
  | marble
  deriving DecidableEq, Repr

/-- What happens, in time order, after the goroutines are launched. -/
inductive Occurrence
  /-- The marble server sends `err` on `errChan`. -/
  | errChan (err : Option Error)
  /-- The marble server sends its bound address on `addrChan`. -/
  | addrChan (grpcAddr : String)
  /-- The etcd server fails; it holds no channel of `run`. -/
  | etcdFailed (err : Error)
  /-- The client server fails; it holds no channel of `run`. -/
  | clientFailed (err : Error)
  deriving DecidableEq, Repr

/-- The occurrence by which a fatal error `err` of subsystem `s` shows: the marble
server was handed `errChan` and sends it there, the other two were handed nothing. -/
def Subsystem.fails : Subsystem → Error → Occurrence
  | .etcd, err => .etcdFailed err
  | .client, err => .clientFailed err
  | .marble, err => .errChan (some err)

/-- Everything outside `run` that `run` depends on. -/
structure World where
  /-- The process environment (`os.LookupEnv`). -/
  environ : String → Option String
  /-- Result of `zap.NewDevelopment()` (argument `true`) or `zap.NewProduction()` (`false`). -/
  newLogger : Bool → Except Error Logger
  /-- Go `filepath.Join` of two elements. -/
  filepathJoin : String → String → String
  /-- Result of `os.MkdirAll(path, perm)`; `none` is a nil error. -/
  MkdirAll : String → Nat → Option Error
  /-- Result of `core.NewAESGCMSealer(sealDir, sealKey)`. -/
  NewAESGCMSealer : String → List Nat → Sealer
  /-- Result of `core.NewCore(dnsNames, validator, issuer, sealer, zapLogger)`. -/
  NewCore : List String → Validator → Issuer → Sealer → Logger → Except Error Core
  /-- Result of `server.CreateServeMux(core)`. -/
  CreateServeMux : Core → Mux
  /-- Result of `core.GetTLSConfig()`. -/
  GetTLSConfig : Core → Except Error TLSConfig
  /-- What happens after the marble server goroutine is launched. -/
  timeline : List Occurrence

/-- The calls `run` makes, in order, with their arguments. -/
inductive Event
  | Getenv (key : String)
  | NewDevelopment
  | NewProduction
  | Info (msg : String) (fields : List (String × String))
  | MustGetenv (name : String)
  | Atoi (s : String)
  | MkdirAll (path : String) (perm : Nat)
  | NewAESGCMSealer (sealDir : String) (sealKey : List Nat)
  | NewCore (dnsNames : List String) (validator : Validator) (issuer : Issuer)
      (sealer : Sealer) (zapLogger : Logger)
  | RunEtcdServer (nodeName namespaceName clusterName : String) (clusterSize : Int)
      (dev : Bool) (zapLogger : Logger)
  | CreateServeMux (core : Core)
  | GetTLSConfig (core : Core)
  | RunClientServer (mux : Mux) (addr : String) (tlsConfig : TLSConfig) (zapLogger : Logger)
  | RunMarbleServer (core : Core) (addr : String) (zapLogger : Logger)
  | recvErr (err : Option Error)
  | recvAddr (grpcAddr : String)
  | Sync
  deriving DecidableEq, Repr

/-- The ways an execution of `run` ends (or does not). -/
inductive Exit
  /-- The `log.Fatal(err)` of line 35. -/
  | logFatal (err : Error)
  /-- A fatal `util.MustGetenv(name)`. -/
  | envFatal (name : String)
  /-- The `zapLogger.Fatal` of line 59. -/
  | zapFatal (msg : String) (err : Error)
  /-- A `panic(err)` (lines 53, 64, 76, 89). -/
  | panic (err : Error)
  /-- The `return` of line 91. -/
  | returned
  /-- Blocked in the `select` of line 86: nothing more arrives. -/
  | waiting
  deriving DecidableEq, Repr

/-- The process exit status: 1 from `os.Exit(1)` behind `log.Fatal` and `zapLogger.Fatal`
(and the fatal `MustGetenv`), 2 from an unrecovered panic, 0 when `run` returns and
`main` ends; none while `run` waits. -/
def Exit.status : Exit → Option Nat
  | .logFatal _ => some 1
  | .envFatal _ => some 1
  | .zapFatal _ _ => some 1
  | .panic _ => some 2
  | .returned => some 0
  | .waiting => none

/-- The process ended on a fatal path. -/
def Exit.fatal : Exit → Bool
  | .logFatal _ => true
  | .envFatal _ => true
  | .zapFatal _ _ => true
  | .panic _ => true
  | .returned => false
  | .waiting => false

/-- An execution: the calls made and how it ended. -/
structure Result where
  trace : List Event
  exit : Exit
  deriving DecidableEq, Repr

/-! ## `run` -/

/-- The `for { select { ... } }` of lines 85-95 over what happens after launch.  The
`select` has a case for `errChan` and one for `addrChan` and no other; the deferred
`zapLogger.Sync()` runs when the function panics or returns. -/
def supervise : List Occurrence → Result
  | [] => ⟨[], .waiting⟩
  | .errChan (some err) :: _ => ⟨[.recvErr (some err), .Sync], .panic err⟩
  | .errChan none :: _ => ⟨[.recvErr none, .Sync], .returned⟩
  | .addrChan grpcAddr :: rest =>
    let r := supervise rest
    ⟨.recvAddr grpcAddr :: .Info "started gRPC server" [("grpcAddr", grpcAddr)] :: r.trace, r.exit⟩
  | .etcdFailed _ :: rest => supervise rest
  | .clientFailed _ :: rest => supervise rest

/-- The execution `r` preceded by the calls `calls`. -/
def Result.after (calls : List Event) (r : Result) : Result :=
  ⟨calls ++ r.trace, r.exit⟩

/-- The function `run` of `cmd/coordinator/run.go`. -/
def run (w : World) (cfg : config.Undeclared) (validator : Validator) (issuer : Issuer)
    (sealKey : List Nat) (sealDirPrefix : String) : Result :=
  let devMode := os.Getenv w.environ config.DevMode
  .after [.Getenv config.DevMode, if devMode = "1" then .NewDevelopment else .NewProduction] <|
  match w.newLogger (devMode = "1") with
  | .error err => ⟨[], .logFatal err⟩
  | .ok zapLogger =>
  .after [.Info "starting coordinator" [], .MustGetenv config.SealDir] <|
  match util.MustGetenv w.environ config.SealDir with
  | none => ⟨[], .envFatal config.SealDir⟩
  | some sealDir0 =>
  let sealDir := w.filepathJoin sealDirPrefix sealDir0
  .after [.MustGetenv config.DNSNames] <|
  match util.MustGetenv w.environ config.DNSNames with
  | none => ⟨[], .envFatal config.DNSNames⟩
  | some dnsNamesString =>
  let dnsNames := strings.Split dnsNamesString ','
  .after [.MustGetenv config.ClientAddr] <|
  match util.MustGetenv w.environ config.ClientAddr with
  | none => ⟨[], .envFatal config.ClientAddr⟩
  | some clientServerAddr =>
  .after [.MustGetenv config.MeshAddr] <|
  match util.MustGetenv w.environ config.MeshAddr with
  | none => ⟨[], .envFatal config.MeshAddr⟩
  | some meshServerAddr =>
  .after [.MustGetenv cfg.EtcdNodeName] <|
  match util.MustGetenv w.environ cfg.EtcdNodeName with
  | none => ⟨[], .envFatal cfg.EtcdNodeName⟩
  | some etcdNodeName =>
  .after [.MustGetenv cfg.EtcdNamespace] <|
  match util.MustGetenv w.environ cfg.EtcdNamespace with
  | none => ⟨[], .envFatal cfg.EtcdNamespace⟩
  | some etcNamespace =>
  .after [.MustGetenv cfg.EtcdClusterName] <|
  match util.MustGetenv w.environ cfg.EtcdClusterName with
  | none => ⟨[], .envFatal cfg.EtcdClusterName⟩
  | some etcClusterName =>
  .after [.MustGetenv cfg.EtcdClusterSize] <|
  match util.MustGetenv w.environ cfg.EtcdClusterSize with
  | none => ⟨[], .envFatal cfg.EtcdClusterSize⟩
  | some etcClusterSizeString =>
  .after [.Atoi etcClusterSizeString] <|
  match strconv.Atoi etcClusterSizeString with
  | .error err => ⟨[.Sync], .panic err⟩
  | .ok etcClusterSize =>
  .after [.Info "creating the Core object" [], .MkdirAll sealDir 0o700] <|
  match w.MkdirAll sealDir 0o700 with
  | some err =>
    ⟨[], .zapFatal
      "Cannot create or access sealdir. Please check the permissions for the specified path." err⟩
  | none =>
  let sealer := w.NewAESGCMSealer sealDir sealKey
  .after [.NewAESGCMSealer sealDir sealKey,
    .NewCore dnsNames validator issuer sealer zapLogger] <|
  match w.NewCore dnsNames validator issuer sealer zapLogger with
  | .error err => ⟨[.Sync], .panic err⟩
  | .ok core =>
  .after [.Info "starting the etcd server" [],
    .RunEtcdServer etcdNodeName etcNamespace etcClusterName etcClusterSize (devMode = "1") zapLogger,
    .Info "starting the client server" [],
    .CreateServeMux core,
    .GetTLSConfig core] <|
  let mux := w.CreateServeMux core
  match w.GetTLSConfig core with
  | .error err => ⟨[.Sync], .panic err⟩
  | .ok clientServerTLSConfig =>
  .after [.RunClientServer mux clientServerAddr clientServerTLSConfig zapLogger,
    .Info "starting the marble server" [],
    .RunMarbleServer core meshServerAddr zapLogger] <|
  supervise w.timeline

/-! ## Vocabulary of the properties -/

/-- The subsystem an event launches, if it is a `go` statement. -/
def Event.launches : Event → Option Subsystem
  | .RunEtcdServer .. => some .etcd
  | .RunClientServer .. => some .client
  | .RunMarbleServer .. => some .marble
  | _ => none

/-- The subsystems launched along a trace, in launch order. -/
def launched (t : List Event) : List Subsystem :=
  t.filterMap Event.launches

/-- The start-up actions of lines 56-84: creating the seal directory, constructing the
sealer, the Core, the mux and the TLS configuration, launching a server. -/
def Event.isStartupAction : Event → Bool
  | .MkdirAll .. => true
  | .NewAESGCMSealer .. => true
  | .NewCore .. => true
  | .RunEtcdServer .. => true
  | .CreateServeMux .. => true
  | .GetTLSConfig .. => true
  | .RunClientServer .. => true
  | .RunMarbleServer .. => true
  | _ => false

/-- The seven kinds of start-up step: seal directory, sealer, Core, the three launches
and the TLS configuration. -/
def Event.isStartupStep : Event → Bool
  | .MkdirAll .. => true
  | .NewAESGCMSealer .. => true
  | .NewCore .. => true
  | .RunEtcdServer .. => true
  | .GetTLSConfig .. => true
  | .RunClientServer .. => true
  | .RunMarbleServer .. => true
  | _ => false

/-- The names `run` passes to `util.MustGetenv` (lines 42-51), in order. -/
def requiredNames (cfg : config.Undeclared) : List String :=
  [config.SealDir, config.DNSNames, config.ClientAddr, config.MeshAddr,
   cfg.EtcdNodeName, cfg.EtcdNamespace, cfg.EtcdClusterName, cfg.EtcdClusterSize]

/-- The logger constructor `run` calls in world `w` (lines 28-32). -/
def loggerCall (w : World) : Event :=
  if os.Getenv w.environ config.DevMode = "1" then .NewDevelopment else .NewProduction

/-- The calls of `run` that set up logging (lines 27-32). -/
def logCalls (w : World) : List Event :=
  [.Getenv config.DevMode, loggerCall w]

/-- The calls of `run` up to and including the `n`-th `util.MustGetenv`. -/
def bootCalls (w : World) (cfg : config.Undeclared) (n : Nat) : List Event :=
  logCalls w ++ .Info "starting coordinator" [] ::
    ((requiredNames cfg).take n).map Event.MustGetenv

/-- The message of the `zapLogger.Fatal` of line 59. -/
def sealDirMessage : String :=
  "Cannot create or access sealdir. Please check the permissions for the specified path."

/-- Event `x` occurs in `t` before event `y`. -/
def precedes (x y : Event) (t : List Event) : Prop :=
  ∃ a b c, t = a ++ x :: (b ++ y :: c)

/-- The calls of the loop of lines 85-95 that receives the addresses `addrs` and then `err`
from `errChan`, with the deferred `zapLogger.Sync()`. -/
def loopCalls (addrs : List String) (err : Option Error) : List Event :=
  addrs.flatMap (fun a => [.recvAddr a, .Info "started gRPC server" [("grpcAddr", a)]]) ++
    [.recvErr err, .Sync]

/-- The occurrence is a message on `errChan`. -/
def Occurrence.onErrChan : Occurrence → Bool
  | .errChan _ => true
  | _ => false

/-! ## Sample worlds -/

/-- Sample values of the four constants missing from `config.go`. -/
def sampleCfg : config.Undeclared :=
  ⟨"EDG_COORDINATOR_ETCD_NODE_NAME", "EDG_COORDINATOR_ETCD_NAMESPACE",
   "EDG_COORDINATOR_ETCD_CLUSTER_NAME", "EDG_COORDINATOR_ETCD_CLUSTER_SIZE"⟩

/-- A sample environment: every required variable is set except those of `unset`; the
DNS names are `dns`, the cluster size is `size`, the development flag is not set. -/
def sampleEnviron (unset : List String) (dns size : String) : String → Option String :=
  fun name =>
    if name ∈ unset then none
    else if name = config.SealDir then some "seal"
    else if name = config.DNSNames then some dns
    else if name = config.ClientAddr then some "localhost:25555"
    else if name = config.MeshAddr then some "localhost:2001"
    else if name = sampleCfg.EtcdNodeName then some "node0"
    else if name = sampleCfg.EtcdNamespace then some "default"
    else if name = sampleCfg.EtcdClusterName then some "cluster"
    else if name = sampleCfg.EtcdClusterSize then some size
    else none

/-- A sample world over `environ` in which the seal directory has result `mkdir`, Core
construction `newCore`, `GetTLSConfig` result `tls`, and `timeline` happens after launch. -/
def sampleWorld (environ : String → Option String) (mkdir : Option Error)
    (newCore : Except Error Core) (tls : Except Error TLSConfig)
    (timeline : List Occurrence) : World where
  environ := environ
  newLogger := fun _ => .ok ⟨0⟩
  filepathJoin := fun a b => a ++ "/" ++ b
  MkdirAll := fun _ _ => mkdir
  NewAESGCMSealer := fun _ _ => ⟨1⟩
  NewCore := fun _ _ _ _ _ => newCore
  CreateServeMux := fun _ => ⟨3⟩
  GetTLSConfig := fun _ => tls
  timeline := timeline

/-- The sample world in which every start-up step succeeds. -/
def goodWorld (timeline : List Occurrence) : World :=
  sampleWorld (sampleEnviron [] "a, b" "3") none (.ok ⟨2⟩) (.ok ⟨4⟩) timeline

/-! ## `strings.Split` -/

theorem splitChars_ne_nil (sep : Char) (l : List Char) : strings.splitChars sep l ≠ [] := by
  induction l with
  | nil => simp [strings.splitChars]
  | cons c cs ih =>
    unfold strings.splitChars
    split
    · simp
    · split
      · simp
      · simp

theorem splitChars_length (sep : Char) (l : List Char) :
    (strings.splitChars sep l).length = l.count sep + 1 := by
  induction l with
  | nil => simp [strings.splitChars]
  | cons c cs ih =>
    unfold strings.splitChars
    by_cases h : c = sep
    · subst h; simp [ih]
    · have hc : (c == sep) = false := by simpa using h
      rw [if_neg h, List.count_cons, hc]
      cases hs : strings.splitChars sep cs with
      | nil => exact absurd hs (splitChars_ne_nil sep cs)
      | cons p ps => rw [hs] at ih; simpa using ih

theorem splitChars_not_mem (sep : Char) (l : List Char) :
    ∀ p ∈ strings.splitChars sep l, sep ∉ p := by
  induction l with
  | nil => simp [strings.splitChars]
  | cons c cs ih =>
    unfold strings.splitChars
    by_cases h : c = sep
    · rw [if_pos h]
      intro p hp
      rcases List.mem_cons.1 hp with rfl | hp
      · simp
      · exact ih p hp
    · rw [if_neg h]
      cases hs : strings.splitChars sep cs with
      | nil => exact absurd hs (splitChars_ne_nil sep cs)
      | cons q qs =>
        rw [hs] at ih
        intro p hp
        rcases List.mem_cons.1 hp with rfl | hp
        · intro hmem
          rcases List.mem_cons.1 hmem with rfl | hmem
          · exact h rfl
          · exact ih q (List.mem_cons_self _ _) hmem
        · exact ih p (List.mem_cons_of_mem _ hp)

/-- Joining character pieces with a separator. -/
theorem join_mk (sep : String) (ps : List (List Char)) :
    (strings.Join (ps.map String.mk) sep).data = List.intercalate sep.data ps := by
  induction ps with
  | nil => simp [strings.Join, List.intercalate]
  | cons p ps ih =>
    cases ps with
    | nil => simp [strings.Join, List.intercalate]
    | cons q qs =>
      simp only [List.map_cons, strings.Join] at ih ⊢
      simp only [String.data_append, List.map_cons] at ih ⊢
      rw [ih]
      simp [List.intercalate]

theorem splitChars_intercalate (sep : Char) (l : List Char) :
    List.intercalate [sep] (strings.splitChars sep l) = l := by
  induction l with
  | nil => simp [strings.splitChars, List.intercalate]
  | cons c cs ih =>
    unfold strings.splitChars
    by_cases h : c = sep
    · rw [if_pos h]
      cases hs : strings.splitChars sep cs with
      | nil => exact absurd hs (splitChars_ne_nil sep cs)
      | cons q qs =>
        rw [hs] at ih
        subst h
        simp [List.intercalate] at ih ⊢
        exact ih
    · rw [if_neg h]
      cases hs : strings.splitChars sep cs with
      | nil => exact absurd hs (splitChars_ne_nil sep cs)
      | cons q qs =>
        rw [hs] at ih
        cases qs with
        | nil => simp [List.intercalate] at ih ⊢; exact ih
        | cons r rs => simp [List.intercalate] at ih ⊢; exact ih

/-! ## The executions of `run` -/

@[simp] theorem after_trace (c : List Event) (r : Result) :
    (r.after c).trace = c ++ r.trace := rfl

@[simp] theorem after_exit (c : List Event) (r : Result) : (r.after c).exit = r.exit := rfl

/-- Every execution of `run` is one of fourteen: the thirteen failing start-ups, each
with its calls and its exit, or the completed start-up followed by the loop. -/
theorem run_cases (w : World) (cfg : config.Undeclared) (v : Validator) (i : Issuer)
    (k : List Nat) (p : String) :
    (∃ err, w.newLogger (os.Getenv w.environ config.DevMode = "1") = .error err ∧
      run w cfg v i k p = ⟨logCalls w, .logFatal err⟩) ∨
    ∃ lg, w.newLogger (os.Getenv w.environ config.DevMode = "1") = .ok lg ∧ (
    (w.environ config.SealDir = none ∧
      run w cfg v i k p = ⟨bootCalls w cfg 1, .envFatal config.SealDir⟩) ∨
    ∃ sealDir0, w.environ config.SealDir = some sealDir0 ∧ (
    (w.environ config.DNSNames = none ∧
      run w cfg v i k p = ⟨bootCalls w cfg 2, .envFatal config.DNSNames⟩) ∨
    ∃ dns, w.environ config.DNSNames = some dns ∧ (
    (w.environ config.ClientAddr = none ∧
      run w cfg v i k p = ⟨bootCalls w cfg 3, .envFatal config.ClientAddr⟩) ∨
    ∃ clientAddr, w.environ config.ClientAddr = some clientAddr ∧ (
    (w.environ config.MeshAddr = none ∧
      run w cfg v i k p = ⟨bootCalls w cfg 4, .envFatal config.MeshAddr⟩) ∨
    ∃ meshAddr, w.environ config.MeshAddr = some meshAddr ∧ (
    (w.environ cfg.EtcdNodeName = none ∧
      run w cfg v i k p = ⟨bootCalls w cfg 5, .envFatal cfg.EtcdNodeName⟩) ∨
    ∃ nodeName, w.environ cfg.EtcdNodeName = some nodeName ∧ (
    (w.environ cfg.EtcdNamespace = none ∧
      run w cfg v i k p = ⟨bootCalls w cfg 6, .envFatal cfg.EtcdNamespace⟩) ∨
    ∃ ns, w.environ cfg.EtcdNamespace = some ns ∧ (
    (w.environ cfg.EtcdClusterName = none ∧
      run w cfg v i k p = ⟨bootCalls w cfg 7, .envFatal cfg.EtcdClusterName⟩) ∨
    ∃ clusterName, w.environ cfg.EtcdClusterName = some clusterName ∧ (
    (w.environ cfg.EtcdClusterSize = none ∧
      run w cfg v i k p = ⟨bootCalls w cfg 8, .envFatal cfg.EtcdClusterSize⟩) ∨
    ∃ sizeString, w.environ cfg.EtcdClusterSize = some sizeString ∧ (
    (∃ err, strconv.Atoi sizeString = .error err ∧
      run w cfg v i k p = ⟨bootCalls w cfg 8 ++ [.Atoi sizeString, .Sync], .panic err⟩) ∨
    ∃ size, strconv.Atoi sizeString = .ok size ∧ (
    (∃ err, w.MkdirAll (w.filepathJoin p sealDir0) 0o700 = some err ∧
      run w cfg v i k p = ⟨bootCalls w cfg 8 ++ [.Atoi sizeString,
        .Info "creating the Core object" [], .MkdirAll (w.filepathJoin p sealDir0) 0o700],
        .zapFatal sealDirMessage err⟩) ∨
    w.MkdirAll (w.filepathJoin p sealDir0) 0o700 = none ∧ (
    (∃ err, w.NewCore (strings.Split dns ',') v i
        (w.NewAESGCMSealer (w.filepathJoin p sealDir0) k) lg = .error err ∧
      run w cfg v i k p = ⟨bootCalls w cfg 8 ++ [.Atoi sizeString,
        .Info "creating the Core object" [], .MkdirAll (w.filepathJoin p sealDir0) 0o700,
        .NewAESGCMSealer (w.filepathJoin p sealDir0) k,
        .NewCore (strings.Split dns ',') v i
          (w.NewAESGCMSealer (w.filepathJoin p sealDir0) k) lg,
        .Sync], .panic err⟩) ∨
    ∃ core, w.NewCore (strings.Split dns ',') v i
        (w.NewAESGCMSealer (w.filepathJoin p sealDir0) k) lg = .ok core ∧ (
    (∃ err, w.GetTLSConfig core = .error err ∧
      run w cfg v i k p = ⟨bootCalls w cfg 8 ++ [.Atoi sizeString,
        .Info "creating the Core object" [], .MkdirAll (w.filepathJoin p sealDir0) 0o700,
        .NewAESGCMSealer (w.filepathJoin p sealDir0) k,
        .NewCore (strings.Split dns ',') v i
          (w.NewAESGCMSealer (w.filepathJoin p sealDir0) k) lg,
        .Info "starting the etcd server" [],
        .RunEtcdServer nodeName ns clusterName size
          (os.Getenv w.environ config.DevMode = "1") lg,
        .Info "starting the client server" [],
        .CreateServeMux core,
        .GetTLSConfig core,
        .Sync], .panic err⟩) ∨
    ∃ tls, w.GetTLSConfig core = .ok tls ∧
      run w cfg v i k p = ⟨bootCalls w cfg 8 ++ [.Atoi sizeString,
        .Info "creating the Core object" [], .MkdirAll (w.filepathJoin p sealDir0) 0o700,
        .NewAESGCMSealer (w.filepathJoin p sealDir0) k,
        .NewCore (strings.Split dns ',') v i
          (w.NewAESGCMSealer (w.filepathJoin p sealDir0) k) lg,
        .Info "starting the etcd server" [],
        .RunEtcdServer nodeName ns clusterName size
          (os.Getenv w.environ config.DevMode = "1") lg,
        .Info "starting the client server" [],
        .CreateServeMux core,
        .GetTLSConfig core,
        .RunClientServer (w.CreateServeMux core) clientAddr tls lg,
        .Info "starting the marble server" [],
        .RunMarbleServer core meshAddr lg] ++ (supervise w.timeline).trace,
        (supervise w.timeline).exit⟩)))))))))))) := by
  unfold run
  simp only [util.MustGetenv, bootCalls, logCalls, requiredNames, loggerCall, sealDirMessage]
  cases h0 : w.newLogger (decide (os.Getenv w.environ config.DevMode = "1")) with
  | error err => exact Or.inl ⟨err, rfl, rfl⟩
  | ok lg =>
  refine Or.inr ⟨lg, rfl, ?_⟩
  dsimp only
  cases h1 : w.environ config.SealDir with
  | none => exact Or.inl ⟨rfl, rfl⟩
  | some sealDir0 =>
  refine Or.inr ⟨sealDir0, rfl, ?_⟩
  dsimp only
  cases h2 : w.environ config.DNSNames with
  | none => exact Or.inl ⟨rfl, rfl⟩
  | some dns =>
  refine Or.inr ⟨dns, rfl, ?_⟩
  dsimp only
  cases h3 : w.environ config.ClientAddr with
  | none => exact Or.inl ⟨rfl, rfl⟩
  | some clientAddr =>
  refine Or.inr ⟨clientAddr, rfl, ?_⟩
  dsimp only
  cases h4 : w.environ config.MeshAddr with
  | none => exact Or.inl ⟨rfl, rfl⟩
  | some meshAddr =>
  refine Or.inr ⟨meshAddr, rfl, ?_⟩
  dsimp only
  cases h5 : w.environ cfg.EtcdNodeName with
  | none => exact Or.inl ⟨rfl, rfl⟩
  | some nodeName =>
  refine Or.inr ⟨nodeName, rfl, ?_⟩
  dsimp only
  cases h6 : w.environ cfg.EtcdNamespace with
  | none => exact Or.inl ⟨rfl, rfl⟩
  | some ns =>
  refine Or.inr ⟨ns, rfl, ?_⟩
  dsimp only
  cases h7 : w.environ cfg.EtcdClusterName with
  | none => exact Or.inl ⟨rfl, rfl⟩
  | some clusterName =>
  refine Or.inr ⟨clusterName, rfl, ?_⟩
  dsimp only
  cases h8 : w.environ cfg.EtcdClusterSize with
  | none => exact Or.inl ⟨rfl, rfl⟩
  | some sizeString =>
  refine Or.inr ⟨sizeString, rfl, ?_⟩
  dsimp only
  cases h9 : strconv.Atoi sizeString with
  | error err => exact Or.inl ⟨err, rfl, rfl⟩
  | ok size =>
  refine Or.inr ⟨size, rfl, ?_⟩
  dsimp only
  cases h10 : w.MkdirAll (w.filepathJoin p sealDir0) 0o700 with
  | some err => exact Or.inl ⟨err, rfl, rfl⟩
  | none =>
  refine Or.inr ⟨rfl, ?_⟩
  dsimp only
  cases h11 : w.NewCore (strings.Split dns ',') v i
      (w.NewAESGCMSealer (w.filepathJoin p sealDir0) k) lg with
  | error err => exact Or.inl ⟨err, rfl, rfl⟩
  | ok core =>
  refine Or.inr ⟨core, rfl, ?_⟩
  dsimp only
  cases h12 : w.GetTLSConfig core with
  | error err => exact Or.inl ⟨err, rfl, rfl⟩
  | ok tls => exact Or.inr ⟨tls, rfl, rfl⟩

/-! ## Helper facts on traces -/

theorem loggerCall_eq (w : World) :
    loggerCall w = .NewDevelopment ∨ loggerCall w = .NewProduction := by
  unfold loggerCall
  split
  · exact Or.inl rfl
  · exact Or.inr rfl

@[simp] theorem loggerCall_launches (w : World) : (loggerCall w).launches = none := by
  rcases loggerCall_eq w with h | h <;> rw [h] <;> rfl

@[simp] theorem loggerCall_isStartupAction (w : World) :
    (loggerCall w).isStartupAction = false := by
  rcases loggerCall_eq w with h | h <;> rw [h] <;> rfl

theorem mem_logCalls {w : World} {e : Event} (h : e ∈ logCalls w) :
    e = .Getenv config.DevMode ∨ e = .NewDevelopment ∨ e = .NewProduction := by
  unfold logCalls at h
  rcases List.mem_cons.1 h with h | h
  · exact Or.inl h
  · rw [List.mem_singleton] at h
    rcases loggerCall_eq w with hl | hl
    · exact Or.inr (Or.inl (h.trans hl))
    · exact Or.inr (Or.inr (h.trans hl))

theorem mem_bootCalls {w : World} {cfg : config.Undeclared} {n : Nat} {e : Event}
    (h : e ∈ bootCalls w cfg n) :
    e = .Getenv config.DevMode ∨ e = .NewDevelopment ∨ e = .NewProduction ∨
      e = .Info "starting coordinator" [] ∨ ∃ name, e = .MustGetenv name := by
  unfold bootCalls at h
  rcases List.mem_append.1 h with h | h
  · rcases mem_logCalls h with h | h | h
    · exact Or.inl h
    · exact Or.inr (Or.inl h)
    · exact Or.inr (Or.inr (Or.inl h))
  rcases List.mem_cons.1 h with h | h
  · exact Or.inr (Or.inr (Or.inr (Or.inl h)))
  · obtain ⟨name, _, rfl⟩ := List.mem_map.1 h
    exact Or.inr (Or.inr (Or.inr (Or.inr ⟨name, rfl⟩)))

theorem logCalls_not_startup {w : World} {e : Event}
    (h : e ∈ logCalls w) : e.isStartupAction = false := by
  rcases mem_logCalls h with rfl | rfl | rfl <;> rfl

theorem logCalls_launches {w : World} {e : Event}
    (h : e ∈ logCalls w) : e.launches = none := by
  rcases mem_logCalls h with rfl | rfl | rfl <;> rfl

theorem mem_supervise (tl : List Occurrence) {e : Event} (h : e ∈ (supervise tl).trace) :
    (∃ err, e = .recvErr err) ∨ (∃ a, e = .recvAddr a) ∨
      (∃ a, e = .Info "started gRPC server" [("grpcAddr", a)]) ∨ e = .Sync := by
  induction tl with
  | nil => simp [supervise] at h
  | cons o rest ih =>
    cases o with
    | errChan err =>
      cases err with
      | none =>
        simp only [supervise, List.mem_cons, List.mem_singleton, List.not_mem_nil, or_false] at h
        rcases h with h | h
        · exact Or.inl ⟨_, h⟩
        · exact Or.inr (Or.inr (Or.inr h))
      | some err =>
        simp only [supervise, List.mem_cons, List.mem_singleton, List.not_mem_nil, or_false] at h
        rcases h with h | h
        · exact Or.inl ⟨_, h⟩
        · exact Or.inr (Or.inr (Or.inr h))
    | addrChan a =>
      simp only [supervise, List.mem_cons] at h
      rcases h with h | h | h
      · exact Or.inr (Or.inl ⟨_, h⟩)
      · exact Or.inr (Or.inr (Or.inl ⟨_, h⟩))
      · exact ih h
    | etcdFailed err => exact ih (by simpa [supervise] using h)
    | clientFailed err => exact ih (by simpa [supervise] using h)

theorem bootCalls_not_startup {w : World} {cfg : config.Undeclared} {n : Nat} {e : Event}
    (h : e ∈ bootCalls w cfg n) : e.isStartupAction = false := by
  rcases mem_bootCalls h with rfl | rfl | rfl | rfl | ⟨name, rfl⟩ <;> rfl

theorem bootCalls_launches {w : World} {cfg : config.Undeclared} {n : Nat} {e : Event}
    (h : e ∈ bootCalls w cfg n) : e.launches = none := by
  rcases mem_bootCalls h with rfl | rfl | rfl | rfl | ⟨name, rfl⟩ <;> rfl

theorem supervise_not_startup (tl : List Occurrence) {e : Event}
    (h : e ∈ (supervise tl).trace) : e.isStartupAction = false := by
  rcases mem_supervise tl h with ⟨_, rfl⟩ | ⟨_, rfl⟩ | ⟨_, rfl⟩ | rfl <;> rfl

theorem supervise_launches (tl : List Occurrence) {e : Event}
    (h : e ∈ (supervise tl).trace) : e.launches = none := by
  rcases mem_supervise tl h with ⟨_, rfl⟩ | ⟨_, rfl⟩ | ⟨_, rfl⟩ | rfl <;> rfl

theorem launched_eq_nil {t : List Event} (h : ∀ e ∈ t, e.launches = none) :
    launched t = [] := by
  unfold launched
  exact List.filterMap_eq_nil_iff.2 h

@[simp] theorem launched_logCalls (w : World) : launched (logCalls w) = [] :=
  launched_eq_nil (fun _ h => logCalls_launches h)

@[simp] theorem launched_bootCalls (w : World) (cfg : config.Undeclared) (n : Nat) :
    launched (bootCalls w cfg n) = [] :=
  launched_eq_nil (fun _ h => bootCalls_launches h)

@[simp] theorem launched_supervise (tl : List Occurrence) :
    launched (supervise tl).trace = [] :=
  launched_eq_nil (fun _ h => supervise_launches tl h)

@[simp] theorem launched_append (s t : List Event) :
    launched (s ++ t) = launched s ++ launched t := by
  simp [launched]

@[simp] theorem launched_nil : launched [] = [] := rfl

@[simp] theorem launched_cons (e : Event) (t : List Event) :
    launched (e :: t) = (match e.launches with
      | some s => s :: launched t
      | none => launched t) := by
  cases h : e.launches <;> simp [launched, h]

/-! ## The loop -/

theorem supervise_addrs_err (addrs : List String) (err : Option Error)
    (rest : List Occurrence) :
    supervise (addrs.map Occurrence.addrChan ++ .errChan err :: rest) =
      ⟨loopCalls addrs err, match err with
        | some e => .panic e
        | none => .returned⟩ := by
  induction addrs with
  | nil => cases err <;> simp [supervise, loopCalls]
  | cons a addrs ih =>
    rw [List.map_cons, List.cons_append]
    simp only [supervise]
    rw [ih]
    simp [loopCalls]

theorem supervise_addrs (addrs : List String) :
    (supervise (addrs.map Occurrence.addrChan)).exit = .waiting ∧
    (supervise (addrs.map Occurrence.addrChan)).trace =
      addrs.flatMap (fun a => [.recvAddr a, .Info "started gRPC server" [("grpcAddr", a)]]) := by
  induction addrs with
  | nil => simp [supervise]
  | cons a addrs ih => simp [supervise, ih.1, ih.2]

theorem supervise_first_err (pre rest : List Occurrence) (err : Option Error)
    (hpre : ∀ o ∈ pre, o.onErrChan = false) :
    (supervise (pre ++ .errChan err :: rest)).exit =
      (match err with
        | some e => .panic e
        | none => .returned) := by
  induction pre with
  | nil => cases err <;> simp [supervise]
  | cons o pre ih =>
    have ih := ih (fun o ho => hpre o (List.mem_cons_of_mem _ ho))
    cases o with
    | errChan e => simpa [Occurrence.onErrChan] using hpre (.errChan e) (List.mem_cons_self _ _)
    | addrChan a => simpa [supervise] using ih
    | etcdFailed e => simpa [supervise] using ih
    | clientFailed e => simpa [supervise] using ih

theorem supervise_no_err (tl : List Occurrence) (h : ∀ o ∈ tl, o.onErrChan = false) :
    (supervise tl).exit = .waiting := by
  induction tl with
  | nil => rfl
  | cons o tl ih =>
    have ih := ih (fun o ho => h o (List.mem_cons_of_mem _ ho))
    cases o with
    | errChan e => simpa [Occurrence.onErrChan] using h (.errChan e) (List.mem_cons_self _ _)
    | addrChan a => simpa [supervise] using ih
    | etcdFailed e => simpa [supervise] using ih
    | clientFailed e => simpa [supervise] using ih

theorem supervise_split (tl : List Occurrence) :
    (∀ o ∈ tl, o.onErrChan = false) ∨
    ∃ pre err rest, tl = pre ++ .errChan err :: rest ∧ ∀ o ∈ pre, o.onErrChan = false := by
  induction tl with
  | nil => exact Or.inl (by simp)
  | cons o tl ih =>
    by_cases ho : o.onErrChan = true
    · right
      cases o with
      | errChan e => exact ⟨[], e, tl, rfl, by simp⟩
      | addrChan a => simp [Occurrence.onErrChan] at ho
      | etcdFailed e => simp [Occurrence.onErrChan] at ho
      | clientFailed e => simp [Occurrence.onErrChan] at ho
    · have ho : o.onErrChan = false := by simpa using ho
      rcases ih with h | ⟨pre, err, rest, rfl, hpre⟩
      · left
        intro x hx
        rcases List.mem_cons.1 hx with rfl | hx
        · exact ho
        · exact h x hx
      · right
        refine ⟨o :: pre, err, rest, rfl, ?_⟩
        intro x hx
        rcases List.mem_cons.1 hx with rfl | hx
        · exact ho
        · exact hpre x hx

theorem supervise_skip (pre rest : List Occurrence) (o : Occurrence)
    (ho : (∃ e, o = .etcdFailed e) ∨ ∃ e, o = .clientFailed e) :
    supervise (pre ++ o :: rest) = supervise (pre ++ rest) := by
  induction pre with
  | nil => rcases ho with ⟨e, rfl⟩ | ⟨e, rfl⟩ <;> simp [supervise]
  | cons x pre ih =>
    cases x with
    | errChan e => cases e <;> simp [supervise]
    | addrChan a => simp [supervise, ih]
    | etcdFailed e => simpa [supervise] using ih
    | clientFailed e => simpa [supervise] using ih


/-! ## Start-up -/

/-- An execution that launched all three servers completed the start-up: its calls are
those up to the launch of the marble server followed by the loop's, and it ends as the
loop ends. -/
theorem run_of_started (w : World) (cfg : config.Undeclared) (v : Validator) (i : Issuer)
    (k : List Nat) (p : String)
    (h : launched (run w cfg v i k p).trace = [.etcd, .client, .marble]) :
    (run w cfg v i k p).exit = (supervise w.timeline).exit ∧
    ∃ pre core addr lg, launched pre = [.etcd, .client] ∧
      (run w cfg v i k p).trace =
        pre ++ .RunMarbleServer core addr lg :: (supervise w.timeline).trace := by
  rcases run_cases w cfg v i k p with
    ⟨err, h0, hr⟩ | ⟨lg, h0, ⟨h1, hr⟩ | ⟨sealDir0, h1, ⟨h2, hr⟩ | ⟨dns, h2, ⟨h3, hr⟩ |
    ⟨clientAddr, h3, ⟨h4, hr⟩ | ⟨meshAddr, h4, ⟨h5, hr⟩ | ⟨nodeName, h5, ⟨h6, hr⟩ |
    ⟨ns, h6, ⟨h7, hr⟩ | ⟨clusterName, h7, ⟨h8, hr⟩ | ⟨sizeString, h8, ⟨err, h9, hr⟩ |
    ⟨size, h9, ⟨err, h10, hr⟩ | ⟨h10, ⟨err, h11, hr⟩ | ⟨core, h11, ⟨err, h12, hr⟩ |
    ⟨tls, h12, hr⟩⟩⟩⟩⟩⟩⟩⟩⟩⟩⟩⟩⟩
  all_goals try (rw [hr] at h; simp [Event.launches, launched_cons] at h; done)
  · rw [hr]
    refine ⟨rfl, bootCalls w cfg 8 ++ [.Atoi sizeString,
        .Info "creating the Core object" [], .MkdirAll (w.filepathJoin p sealDir0) 0o700,
        .NewAESGCMSealer (w.filepathJoin p sealDir0) k,
        .NewCore (strings.Split dns ',') v i
          (w.NewAESGCMSealer (w.filepathJoin p sealDir0) k) lg,
        .Info "starting the etcd server" [],
        .RunEtcdServer nodeName ns clusterName size
          (os.Getenv w.environ config.DevMode = "1") lg,
        .Info "starting the client server" [],
        .CreateServeMux core,
        .GetTLSConfig core,
        .RunClientServer (w.CreateServeMux core) clientAddr tls lg,
        .Info "starting the marble server" []], core, meshAddr, lg, ?_, ?_⟩
    · simp [Event.launches]
    · simp


theorem supervise_fatal (tl : List Occurrence) (h : (supervise tl).exit.fatal = true) :
    ∃ err, (supervise tl).exit = .panic err ∧ Event.recvErr (some err) ∈ (supervise tl).trace := by
  rcases supervise_split tl with hno | ⟨pre, err, rest, rfl, hpre⟩
  · rw [supervise_no_err tl hno] at h
    simp [Exit.fatal] at h
  · induction pre with
    | nil =>
      cases err with
      | none => simp [supervise, Exit.fatal] at h
      | some e => exact ⟨e, by simp [supervise], by simp [supervise]⟩
    | cons o pre ih =>
      have hpre2 : ∀ x ∈ pre, x.onErrChan = false :=
        fun x hx => hpre x (List.mem_cons_of_mem _ hx)
      cases o with
      | errChan e => simpa [Occurrence.onErrChan] using hpre (.errChan e) (List.mem_cons_self _ _)
      | addrChan a =>
        simp only [List.cons_append, supervise] at h ⊢
        obtain ⟨e, he, hm⟩ := ih hpre2 h
        exact ⟨e, he, by simp [hm]⟩
      | etcdFailed e0 =>
        simp only [List.cons_append, supervise] at h ⊢
        exact ih hpre2 h
      | clientFailed e0 =>
        simp only [List.cons_append, supervise] at h ⊢
        exact ih hpre2 h

theorem supervise_returned (tl : List Occurrence) (h : (supervise tl).exit = .returned) :
    ∃ pre rest, tl = pre ++ .errChan none :: rest ∧ ∀ o ∈ pre, o.onErrChan = false := by
  rcases supervise_split tl with hno | ⟨pre, err, rest, rfl, hpre⟩
  · rw [supervise_no_err tl hno] at h
    cases h
  · rw [supervise_first_err pre rest err hpre] at h
    cases err with
    | none => exact ⟨pre, rest, rfl, hpre⟩
    | some e => cases h

/-- An execution that returns launched all three servers. -/
theorem run_returned_started (w : World) (cfg : config.Undeclared) (v : Validator)
    (i : Issuer) (k : List Nat) (p : String) (h : (run w cfg v i k p).exit = .returned) :
    launched (run w cfg v i k p).trace = [.etcd, .client, .marble] ∧
    (supervise w.timeline).exit = .returned := by
  rcases run_cases w cfg v i k p with
    ⟨err, h0, hr⟩ | ⟨lg, h0, ⟨h1, hr⟩ | ⟨sealDir0, h1, ⟨h2, hr⟩ | ⟨dns, h2, ⟨h3, hr⟩ |
    ⟨clientAddr, h3, ⟨h4, hr⟩ | ⟨meshAddr, h4, ⟨h5, hr⟩ | ⟨nodeName, h5, ⟨h6, hr⟩ |
    ⟨ns, h6, ⟨h7, hr⟩ | ⟨clusterName, h7, ⟨h8, hr⟩ | ⟨sizeString, h8, ⟨err, h9, hr⟩ |
    ⟨size, h9, ⟨err, h10, hr⟩ | ⟨h10, ⟨err, h11, hr⟩ | ⟨core, h11, ⟨err, h12, hr⟩ |
    ⟨tls, h12, hr⟩⟩⟩⟩⟩⟩⟩⟩⟩⟩⟩⟩⟩
  all_goals try (rw [hr] at h; simp at h; done)
  · rw [hr] at h ⊢
    exact ⟨by simp [Event.launches], h⟩

/-! ## The supervising loop (C9, C1) -/

/-- C9: once all three subsystems are started, the loop ends only on a message of the
marble server's error channel.  For addresses `addrs` followed by the message `err`, the
calls after the launch of the marble server are: receive and log each address, receive
`err`, the deferred sync; `run` panics with `err` (exit status 2) when it is non-nil and
returns (status 0) when it is nil.  While nothing arrives on the error channel, address
notifications included, `run` waits.  And `run` returns only this way: a returning
execution launched all three and the first error-channel message was nil. -/
theorem loop_ends_on_error_channel_only (w : World) (cfg : config.Undeclared)
    (v : Validator) (i : Issuer) (k : List Nat) (p : String) :
    (launched (run w cfg v i k p).trace = [.etcd, .client, .marble] →
      (∀ (addrs : List String) (err : Option Error) (rest : List Occurrence),
        w.timeline = addrs.map Occurrence.addrChan ++ .errChan err :: rest →
        (∃ pre core addr lg, (run w cfg v i k p).trace =
          pre ++ .RunMarbleServer core addr lg :: loopCalls addrs err) ∧
        (run w cfg v i k p).exit = (match err with
          | some e => .panic e
          | none => .returned) ∧
        (run w cfg v i k p).exit.status = (match err with
          | some _ => some 2
          | none => some 0)) ∧
      (∀ addrs : List String, w.timeline = addrs.map Occurrence.addrChan →
        (run w cfg v i k p).exit = .waiting) ∧
      ((∀ o ∈ w.timeline, o.onErrChan = false) → (run w cfg v i k p).exit = .waiting)) ∧
    ((run w cfg v i k p).exit = .returned →
      launched (run w cfg v i k p).trace = [.etcd, .client, .marble] ∧
      ∃ pre rest, w.timeline = pre ++ .errChan none :: rest ∧
        ∀ o ∈ pre, o.onErrChan = false) := by
  refine ⟨fun hstart => ?_, fun hret => ?_⟩
  · obtain ⟨hexit, pre, core, addr, lg, _, htrace⟩ := run_of_started w cfg v i k p hstart
    refine ⟨?_, ?_, ?_⟩
    · intro addrs err rest htl
      rw [htl, supervise_addrs_err] at hexit htrace
      refine ⟨⟨pre, core, addr, lg, htrace⟩, hexit, ?_⟩
      rw [hexit]
      cases err <;> rfl
    · intro addrs htl
      rw [hexit, htl]
      exact (supervise_addrs addrs).1
    · intro hno
      rw [hexit]
      exact supervise_no_err _ hno
  · obtain ⟨hl, hs⟩ := run_returned_started w cfg v i k p hret
    exact ⟨hl, supervise_returned _ hs⟩

/-- Witness for C9: two addresses then a nil error; two addresses then an error; two
addresses alone. -/
theorem loop_ends_on_error_channel_only_witness :
    launched (run (goodWorld [.addrChan "h:1", .addrChan "h:2", .errChan none])
      sampleCfg ⟨7⟩ ⟨8⟩ [1, 2] "/data").trace = [.etcd, .client, .marble] ∧
    (run (goodWorld [.addrChan "h:1", .addrChan "h:2", .errChan none])
      sampleCfg ⟨7⟩ ⟨8⟩ [1, 2] "/data").exit = .returned ∧
    (run (goodWorld [.addrChan "h:1", .addrChan "h:2", .errChan none])
      sampleCfg ⟨7⟩ ⟨8⟩ [1, 2] "/data").exit.status = some 0 ∧
    (run (goodWorld [.addrChan "h:1", .addrChan "h:2", .errChan (some (.other "bind"))])
      sampleCfg ⟨7⟩ ⟨8⟩ [1, 2] "/data").exit = .panic (.other "bind") ∧
    (run (goodWorld [.addrChan "h:1", .addrChan "h:2"])
      sampleCfg ⟨7⟩ ⟨8⟩ [1, 2] "/data").exit = .waiting := by
  have h1 := (loop_ends_on_error_channel_only
    (goodWorld [.addrChan "h:1", .addrChan "h:2", .errChan none])
    sampleCfg ⟨7⟩ ⟨8⟩ [1, 2] "/data").1 (by decide)
  have h2 := (loop_ends_on_error_channel_only
    (goodWorld [.addrChan "h:1", .addrChan "h:2", .errChan (some (.other "bind"))])
    sampleCfg ⟨7⟩ ⟨8⟩ [1, 2] "/data").1 (by decide)
  have h3 := (loop_ends_on_error_channel_only
    (goodWorld [.addrChan "h:1", .addrChan "h:2"])
    sampleCfg ⟨7⟩ ⟨8⟩ [1, 2] "/data").1 (by decide)
  exact ⟨by decide, (h1.1 ["h:1", "h:2"] none [] rfl).2.1, (h1.1 ["h:1", "h:2"] none [] rfl).2.2,
    (h2.1 ["h:1", "h:2"] (some (.other "bind")) [] rfl).2.1, h3.2.1 ["h:1", "h:2"] rfl⟩

/-- C1 as stated fails: in the sample world all three servers are launched, the etcd
server then fails, and `run` is still waiting, on no fatal path. -/
theorem etcd_failure_leaves_run_waiting :
    launched (run (goodWorld [Subsystem.etcd.fails (.other "etcd: member lost")])
      sampleCfg ⟨7⟩ ⟨8⟩ [1, 2] "/data").trace = [.etcd, .client, .marble] ∧
    (run (goodWorld [Subsystem.etcd.fails (.other "etcd: member lost")])
      sampleCfg ⟨7⟩ ⟨8⟩ [1, 2] "/data").exit = .waiting ∧
    (run (goodWorld [Subsystem.etcd.fails (.other "etcd: member lost")])
      sampleCfg ⟨7⟩ ⟨8⟩ [1, 2] "/data").exit.fatal = false ∧
    (run (goodWorld [Subsystem.client.fails (.other "listen: address in use")])
      sampleCfg ⟨7⟩ ⟨8⟩ [1, 2] "/data").exit = .waiting := by
  decide

/-- C1, amended: once all three subsystems are started, an error the marble server sends
on its error channel, as the first message there, makes `run` panic with it; a failure of
the etcd or the client server, which hold no channel of `run`, leaves the loop as it
would be without it, and `run` waits as long as nothing arrives on the error channel. -/
theorem supervision_reacts_to_marble_errors_only (w : World) (cfg : config.Undeclared)
    (v : Validator) (i : Issuer) (k : List Nat) (p : String)
    (hstart : launched (run w cfg v i k p).trace = [.etcd, .client, .marble]) :
    (∀ (pre : List Occurrence) (err : Error) (rest : List Occurrence),
      w.timeline = pre ++ Subsystem.marble.fails err :: rest →
      (∀ o ∈ pre, o.onErrChan = false) →
      (run w cfg v i k p).exit = .panic err ∧ (run w cfg v i k p).exit.fatal = true) ∧
    (∀ (s : Subsystem) (err : Error) (pre rest : List Occurrence), s ≠ .marble → w.timeline = pre ++ s.fails err :: rest →
      (run w cfg v i k p).exit = (supervise (pre ++ rest)).exit) ∧
    ((∀ o ∈ w.timeline, o.onErrChan = false) → (run w cfg v i k p).exit = .waiting) := by
  obtain ⟨hexit, -⟩ := run_of_started w cfg v i k p hstart
  refine ⟨?_, ?_, ?_⟩
  · intro pre err rest htl hpre
    have : (run w cfg v i k p).exit = .panic err := by
      rw [hexit, htl]
      exact supervise_first_err pre rest (some err) hpre
    exact ⟨this, by rw [this]; rfl⟩
  · intro s err pre rest hs htl
    rw [hexit, htl]
    cases s with
    | etcd => exact congrArg Result.exit (supervise_skip pre rest _ (Or.inl ⟨err, rfl⟩))
    | client => exact congrArg Result.exit (supervise_skip pre rest _ (Or.inr ⟨err, rfl⟩))
    | marble => exact absurd rfl hs
  · intro hno
    rw [hexit]
    exact supervise_no_err _ hno

/-- Witness for amended C1: an address, then an error of the marble server. -/
theorem supervision_reacts_to_marble_errors_only_witness :
    launched (run (goodWorld [.addrChan "h:1", Subsystem.marble.fails (.other "serve")])
      sampleCfg ⟨7⟩ ⟨8⟩ [1, 2] "/data").trace = [.etcd, .client, .marble] ∧
    (run (goodWorld [.addrChan "h:1", Subsystem.marble.fails (.other "serve")])
      sampleCfg ⟨7⟩ ⟨8⟩ [1, 2] "/data").exit = .panic (.other "serve") ∧
    (run (goodWorld [.addrChan "h:1", Subsystem.marble.fails (.other "serve")])
      sampleCfg ⟨7⟩ ⟨8⟩ [1, 2] "/data").exit.fatal = true :=
  ⟨by decide, (supervision_reacts_to_marble_errors_only
    (goodWorld [.addrChan "h:1", Subsystem.marble.fails (.other "serve")])
    sampleCfg ⟨7⟩ ⟨8⟩ [1, 2] "/data" (by decide)).1 [.addrChan "h:1"] (.other "serve") [] rfl
    (by decide)⟩

/-! ## Where the start-up actions can occur -/

theorem mem_logCalls_startup {w : World} {e : Event} (h : e.isStartupAction = true) :
    (e ∈ logCalls w) = False :=
  eq_false (fun hm => by rw [logCalls_not_startup hm] at h; cases h)

theorem mem_bootCalls_startup {w : World} {cfg : config.Undeclared} {n : Nat} {e : Event}
    (h : e.isStartupAction = true) : (e ∈ bootCalls w cfg n) = False :=
  eq_false (fun hm => by rw [bootCalls_not_startup hm] at h; cases h)

theorem mem_supervise_startup {tl : List Occurrence} {e : Event}
    (h : e.isStartupAction = true) : (e ∈ (supervise tl).trace) = False :=
  eq_false (fun hm => by rw [supervise_not_startup tl hm] at h; cases h)

theorem precedes_append_left {x y : Event} {t : List Event} (l : List Event)
    (h : precedes x y t) : precedes x y (l ++ t) := by
  obtain ⟨a, b, c, rfl⟩ := h
  exact ⟨l ++ a, b, c, by simp⟩

theorem precedes_append_right {x y : Event} {t : List Event} (h : precedes x y t)
    (l : List Event) : precedes x y (t ++ l) := by
  obtain ⟨a, b, c, rfl⟩ := h
  exact ⟨a, b, c ++ l, by simp⟩

/-! ## Failures of the seal directory and of Core construction (C4) -/

/-- C4: in an execution in which creating the seal directory fails or `core.NewCore`
returns an error, `run` ends fatally and no server is launched; when it is the seal
directory that fails, `run` ends in the `zapLogger.Fatal` of line 59 and no start-up
action other than the `os.MkdirAll` call occurs (no sealer, no Core); when it is
`core.NewCore`, `run` panics with the error returned. -/
theorem seal_dir_or_core_failure_is_fatal (w : World) (cfg : config.Undeclared)
    (v : Validator) (i : Issuer) (k : List Nat) (p : String)
    (h : (∃ path perm err, Event.MkdirAll path perm ∈ (run w cfg v i k p).trace ∧
            w.MkdirAll path perm = some err) ∨
         (∃ names v1 i1 s lg err, Event.NewCore names v1 i1 s lg ∈ (run w cfg v i k p).trace ∧
            w.NewCore names v1 i1 s lg = .error err)) :
    (run w cfg v i k p).exit.fatal = true ∧
    launched (run w cfg v i k p).trace = [] ∧
    (∀ path perm err, Event.MkdirAll path perm ∈ (run w cfg v i k p).trace →
      w.MkdirAll path perm = some err →
      (run w cfg v i k p).exit = .zapFatal sealDirMessage err ∧
      ∀ e ∈ (run w cfg v i k p).trace, e.isStartupAction = true → e = .MkdirAll path perm) ∧
    (∀ names v1 i1 s lg err, Event.NewCore names v1 i1 s lg ∈ (run w cfg v i k p).trace →
      w.NewCore names v1 i1 s lg = .error err → (run w cfg v i k p).exit = .panic err) := by
  rcases run_cases w cfg v i k p with
    ⟨err, h0, hr⟩ | ⟨lg, h0, ⟨h1, hr⟩ | ⟨sealDir0, h1, ⟨h2, hr⟩ | ⟨dns, h2, ⟨h3, hr⟩ |
    ⟨clientAddr, h3, ⟨h4, hr⟩ | ⟨meshAddr, h4, ⟨h5, hr⟩ | ⟨nodeName, h5, ⟨h6, hr⟩ |
    ⟨ns, h6, ⟨h7, hr⟩ | ⟨clusterName, h7, ⟨h8, hr⟩ | ⟨sizeString, h8, ⟨err, h9, hr⟩ |
    ⟨size, h9, ⟨err, h10, hr⟩ | ⟨h10, ⟨err, h11, hr⟩ | ⟨core, h11, ⟨err, h12, hr⟩ |
    ⟨tls, h12, hr⟩⟩⟩⟩⟩⟩⟩⟩⟩⟩⟩⟩⟩
  all_goals rw [hr] at h ⊢
  all_goals simp only [List.mem_append, List.mem_cons, List.mem_singleton, List.not_mem_nil,
    mem_logCalls_startup, mem_bootCalls_startup, mem_supervise_startup,
    Event.isStartupAction, false_or, or_false, reduceCtorEq, false_and, exists_false,
    exists_const, or_self, Event.MkdirAll.injEq, Event.NewCore.injEq] at h
  all_goals simp_all [mem_logCalls_startup, mem_bootCalls_startup, mem_supervise_startup,
    Event.isStartupAction, Exit.fatal, Event.launches]
  · intro e he hs
    rcases he with he | rfl | rfl | rfl
    · exact absurd (show e.isStartupAction = true from hs)
        (by rw [bootCalls_not_startup he]; simp)
    · cases hs
    · cases hs
    · rfl
  · rcases h with ⟨_, _, ⟨rfl, rfl⟩, x, hx⟩ | ⟨_, _, _, _, _, ⟨rfl, rfl, rfl, rfl, rfl⟩, x, hx⟩
    · rw [h10] at hx; cases hx
    · rw [h11] at hx; cases hx
  · rcases h with ⟨_, _, ⟨rfl, rfl⟩, x, hx⟩ | ⟨_, _, _, _, _, ⟨rfl, rfl, rfl, rfl, rfl⟩, x, hx⟩
    · rw [h10] at hx; cases hx
    · rw [h11] at hx; cases hx

/-- Witness for C4: the seal directory cannot be created. -/
theorem seal_dir_or_core_failure_is_fatal_witness :
    Event.MkdirAll "/data/seal" 0o700 ∈
      (run (sampleWorld (sampleEnviron [] "a, b" "3") (some (.other "permission denied"))
        (.ok ⟨2⟩) (.ok ⟨4⟩) []) sampleCfg ⟨7⟩ ⟨8⟩ [1, 2] "/data").trace ∧
    (run (sampleWorld (sampleEnviron [] "a, b" "3") (some (.other "permission denied"))
        (.ok ⟨2⟩) (.ok ⟨4⟩) []) sampleCfg ⟨7⟩ ⟨8⟩ [1, 2] "/data").exit.fatal = true ∧
    launched (run (sampleWorld (sampleEnviron [] "a, b" "3") (some (.other "permission denied"))
        (.ok ⟨2⟩) (.ok ⟨4⟩) []) sampleCfg ⟨7⟩ ⟨8⟩ [1, 2] "/data").trace = [] ∧
    (run (sampleWorld (sampleEnviron [] "a, b" "3") (some (.other "permission denied"))
        (.ok ⟨2⟩) (.ok ⟨4⟩) []) sampleCfg ⟨7⟩ ⟨8⟩ [1, 2] "/data").exit =
      .zapFatal sealDirMessage (.other "permission denied") := by
  have h := seal_dir_or_core_failure_is_fatal
    (sampleWorld (sampleEnviron [] "a, b" "3") (some (.other "permission denied"))
      (.ok ⟨2⟩) (.ok ⟨4⟩) []) sampleCfg ⟨7⟩ ⟨8⟩ [1, 2] "/data"
    (Or.inl ⟨"/data/seal", 0o700, .other "permission denied", by decide, rfl⟩)
  exact ⟨by decide, h.1, h.2.1,
    (h.2.2.1 "/data/seal" 0o700 (.other "permission denied") (by decide) rfl).1⟩

/-! ## When fatal exits happen (C2) -/

/-- C2 as stated fails: a failing `GetTLSConfig` makes `run` panic after the etcd server
was launched, and an error received from the marble server makes it panic after all
three were launched. -/
theorem panic_after_servers_were_launched :
    (run (sampleWorld (sampleEnviron [] "a, b" "3") none (.ok ⟨2⟩)
        (.error (.other "no certificate")) []) sampleCfg ⟨7⟩ ⟨8⟩ [1, 2] "/data").exit =
      .panic (.other "no certificate") ∧
    launched (run (sampleWorld (sampleEnviron [] "a, b" "3") none (.ok ⟨2⟩)
        (.error (.other "no certificate")) []) sampleCfg ⟨7⟩ ⟨8⟩ [1, 2] "/data").trace =
      [.etcd] ∧
    (run (goodWorld [.errChan (some (.other "serve"))])
      sampleCfg ⟨7⟩ ⟨8⟩ [1, 2] "/data").exit = .panic (.other "serve") ∧
    launched (run (goodWorld [.errChan (some (.other "serve"))])
      sampleCfg ⟨7⟩ ⟨8⟩ [1, 2] "/data").trace = [.etcd, .client, .marble] := by
  decide

/-- C2, amended: a fatal exit of `run` is of one of three kinds.  Either no server has
been launched (this is the only case for `log.Fatal`, a fatal `MustGetenv` and
`zapLogger.Fatal`); or `run` panics with the error of a failing `GetTLSConfig`, after
the etcd server and no other was launched; or `run` panics with an error received from
the marble server's error channel, after all three were launched. -/
theorem fatal_exit_stages (w : World) (cfg : config.Undeclared)
    (v : Validator) (i : Issuer) (k : List Nat) (p : String)
    (hfatal : (run w cfg v i k p).exit.fatal = true) :
    launched (run w cfg v i k p).trace = [] ∨
    (launched (run w cfg v i k p).trace = [.etcd] ∧
      ∃ core err, Event.GetTLSConfig core ∈ (run w cfg v i k p).trace ∧
        w.GetTLSConfig core = .error err ∧ (run w cfg v i k p).exit = .panic err) ∨
    (launched (run w cfg v i k p).trace = [.etcd, .client, .marble] ∧
      ∃ err, Event.recvErr (some err) ∈ (run w cfg v i k p).trace ∧
        (run w cfg v i k p).exit = .panic err) := by
  rcases run_cases w cfg v i k p with
    ⟨err, h0, hr⟩ | ⟨lg, h0, ⟨h1, hr⟩ | ⟨sealDir0, h1, ⟨h2, hr⟩ | ⟨dns, h2, ⟨h3, hr⟩ |
    ⟨clientAddr, h3, ⟨h4, hr⟩ | ⟨meshAddr, h4, ⟨h5, hr⟩ | ⟨nodeName, h5, ⟨h6, hr⟩ |
    ⟨ns, h6, ⟨h7, hr⟩ | ⟨clusterName, h7, ⟨h8, hr⟩ | ⟨sizeString, h8, ⟨err, h9, hr⟩ |
    ⟨size, h9, ⟨err, h10, hr⟩ | ⟨h10, ⟨err, h11, hr⟩ | ⟨core, h11, ⟨err, h12, hr⟩ |
    ⟨tls, h12, hr⟩⟩⟩⟩⟩⟩⟩⟩⟩⟩⟩⟩⟩
  all_goals rw [hr] at hfatal ⊢
  all_goals try (refine Or.inl ?_; simp [Event.launches]; done)
  · exact Or.inr (Or.inl ⟨by simp [Event.launches], core, err, by simp, h12, rfl⟩)
  · obtain ⟨e, he, hm⟩ := supervise_fatal w.timeline hfatal
    exact Or.inr (Or.inr ⟨by simp [Event.launches], e, by simp [hm], he⟩)

/-- Witness for amended C2: the failing `GetTLSConfig`. -/
theorem fatal_exit_stages_witness :
    (run (sampleWorld (sampleEnviron [] "a, b" "3") none (.ok ⟨2⟩)
        (.error (.other "no certificate")) []) sampleCfg ⟨7⟩ ⟨8⟩ [1, 2] "/data").exit.fatal =
      true ∧
    (launched (run (sampleWorld (sampleEnviron [] "a, b" "3") none (.ok ⟨2⟩)
        (.error (.other "no certificate")) []) sampleCfg ⟨7⟩ ⟨8⟩ [1, 2] "/data").trace = [] ∨
    (launched (run (sampleWorld (sampleEnviron [] "a, b" "3") none (.ok ⟨2⟩)
        (.error (.other "no certificate")) []) sampleCfg ⟨7⟩ ⟨8⟩ [1, 2] "/data").trace =
        [.etcd] ∧
      ∃ core err, Event.GetTLSConfig core ∈ (run (sampleWorld (sampleEnviron [] "a, b" "3")
          none (.ok ⟨2⟩) (.error (.other "no certificate")) [])
          sampleCfg ⟨7⟩ ⟨8⟩ [1, 2] "/data").trace ∧
        (sampleWorld (sampleEnviron [] "a, b" "3") none (.ok ⟨2⟩)
          (.error (.other "no certificate")) []).GetTLSConfig core = .error err ∧
        (run (sampleWorld (sampleEnviron [] "a, b" "3") none (.ok ⟨2⟩)
          (.error (.other "no certificate")) []) sampleCfg ⟨7⟩ ⟨8⟩ [1, 2] "/data").exit =
          .panic err) ∨
    (launched (run (sampleWorld (sampleEnviron [] "a, b" "3") none (.ok ⟨2⟩)
        (.error (.other "no certificate")) []) sampleCfg ⟨7⟩ ⟨8⟩ [1, 2] "/data").trace =
        [.etcd, .client, .marble] ∧
      ∃ err, Event.recvErr (some err) ∈ (run (sampleWorld (sampleEnviron [] "a, b" "3")
          none (.ok ⟨2⟩) (.error (.other "no certificate")) [])
          sampleCfg ⟨7⟩ ⟨8⟩ [1, 2] "/data").trace ∧
        (run (sampleWorld (sampleEnviron [] "a, b" "3") none (.ok ⟨2⟩)
          (.error (.other "no certificate")) []) sampleCfg ⟨7⟩ ⟨8⟩ [1, 2] "/data").exit =
          .panic err)) :=
  ⟨by decide, fatal_exit_stages _ _ _ _ _ _ (by decide)⟩

/-! ## The seal directory (C7) -/

/-- C7: every `os.MkdirAll` call of `run` passes the mode 0700, which has no group or
other bit (`mode AND 0077 = 0`) and all three owner bits (`mode AND 0700 = 0700`); and
whenever the sealer is constructed for a directory, the successful creation of that
directory with mode 0700 precedes its construction. -/
theorem seal_dir_owner_only (w : World) (cfg : config.Undeclared)
    (v : Validator) (i : Issuer) (k : List Nat) (p : String) :
    (∀ path perm, Event.MkdirAll path perm ∈ (run w cfg v i k p).trace →
      perm = 0o700 ∧ perm &&& 0o077 = 0 ∧ perm &&& 0o700 = 0o700 ∧
      perm &&& 0o400 = 0o400 ∧ perm &&& 0o200 = 0o200 ∧ perm &&& 0o100 = 0o100) ∧
    (∀ dir key, Event.NewAESGCMSealer dir key ∈ (run w cfg v i k p).trace →
      w.MkdirAll dir 0o700 = none ∧
      precedes (.MkdirAll dir 0o700) (.NewAESGCMSealer dir key) (run w cfg v i k p).trace) := by
  rcases run_cases w cfg v i k p with
    ⟨err, h0, hr⟩ | ⟨lg, h0, ⟨h1, hr⟩ | ⟨sealDir0, h1, ⟨h2, hr⟩ | ⟨dns, h2, ⟨h3, hr⟩ |
    ⟨clientAddr, h3, ⟨h4, hr⟩ | ⟨meshAddr, h4, ⟨h5, hr⟩ | ⟨nodeName, h5, ⟨h6, hr⟩ |
    ⟨ns, h6, ⟨h7, hr⟩ | ⟨clusterName, h7, ⟨h8, hr⟩ | ⟨sizeString, h8, ⟨err, h9, hr⟩ |
    ⟨size, h9, ⟨err, h10, hr⟩ | ⟨h10, ⟨err, h11, hr⟩ | ⟨core, h11, ⟨err, h12, hr⟩ |
    ⟨tls, h12, hr⟩⟩⟩⟩⟩⟩⟩⟩⟩⟩⟩⟩⟩
  all_goals rw [hr]
  all_goals simp only [List.mem_append, List.mem_cons, List.mem_singleton, List.not_mem_nil,
    mem_logCalls_startup, mem_bootCalls_startup, mem_supervise_startup,
    Event.isStartupAction, false_or, or_false, reduceCtorEq, false_and,
    or_self, Event.MkdirAll.injEq, Event.NewAESGCMSealer.injEq, false_implies,
    implies_true, and_self, and_imp]
  all_goals refine ⟨fun path perm _ hperm => by subst hperm; decide, ?_⟩
  all_goals try trivial
  all_goals
    intro dir key hdir hkey
    subst hdir hkey
    first
      | exact ⟨h10, precedes_append_left _ ⟨[_, _], [], _, rfl⟩⟩
      | exact ⟨h10, precedes_append_right (precedes_append_left _ ⟨[_, _], [], _, rfl⟩) _⟩

/-- Witness for C7: the sample start-up creates `/data/seal` with mode 0700 before the
sealer for that directory is constructed. -/
theorem seal_dir_owner_only_witness :
    Event.MkdirAll "/data/seal" 0o700 ∈
      (run (goodWorld []) sampleCfg ⟨7⟩ ⟨8⟩ [1, 2] "/data").trace ∧
    Event.NewAESGCMSealer "/data/seal" [1, 2] ∈
      (run (goodWorld []) sampleCfg ⟨7⟩ ⟨8⟩ [1, 2] "/data").trace ∧
    (0o700 &&& 0o077 = 0 ∧ 0o700 &&& 0o700 = 0o700) ∧
    precedes (.MkdirAll "/data/seal" 0o700) (.NewAESGCMSealer "/data/seal" [1, 2])
      (run (goodWorld []) sampleCfg ⟨7⟩ ⟨8⟩ [1, 2] "/data").trace := by
  have h := seal_dir_owner_only (goodWorld []) sampleCfg ⟨7⟩ ⟨8⟩ [1, 2] "/data"
  have h1 := h.1 "/data/seal" 0o700 (by decide)
  exact ⟨by decide, by decide, ⟨h1.2.1, h1.2.2.1⟩, (h.2 "/data/seal" [1, 2] (by decide)).2⟩

/-! ## The order of the start-up (C5) -/

theorem filter_step_eq_nil {t : List Event} (h : ∀ e ∈ t, e.isStartupAction = false) :
    t.filter Event.isStartupStep = [] := by
  rw [List.filter_eq_nil_iff]
  intro e he hs
  have := h e he
  cases e <;> simp_all [Event.isStartupStep, Event.isStartupAction]

/-- In every execution a launched client server holds a TLS configuration returned by
`GetTLSConfig` before, and a launched marble server follows the launch of the client
server. -/
theorem launch_order (w : World) (cfg : config.Undeclared)
    (v : Validator) (i : Issuer) (k : List Nat) (p : String) :
    (∀ mux addr tls lg, Event.RunClientServer mux addr tls lg ∈ (run w cfg v i k p).trace →
      ∃ core, w.GetTLSConfig core = .ok tls ∧
        precedes (.GetTLSConfig core) (.RunClientServer mux addr tls lg)
          (run w cfg v i k p).trace) ∧
    (∀ core addr lg, Event.RunMarbleServer core addr lg ∈ (run w cfg v i k p).trace →
      ∃ mux caddr tls, precedes (.RunClientServer mux caddr tls lg)
        (.RunMarbleServer core addr lg) (run w cfg v i k p).trace) := by
  rcases run_cases w cfg v i k p with
    ⟨err, h0, hr⟩ | ⟨lg, h0, ⟨h1, hr⟩ | ⟨sealDir0, h1, ⟨h2, hr⟩ | ⟨dns, h2, ⟨h3, hr⟩ |
    ⟨clientAddr, h3, ⟨h4, hr⟩ | ⟨meshAddr, h4, ⟨h5, hr⟩ | ⟨nodeName, h5, ⟨h6, hr⟩ |
    ⟨ns, h6, ⟨h7, hr⟩ | ⟨clusterName, h7, ⟨h8, hr⟩ | ⟨sizeString, h8, ⟨err, h9, hr⟩ |
    ⟨size, h9, ⟨err, h10, hr⟩ | ⟨h10, ⟨err, h11, hr⟩ | ⟨core, h11, ⟨err, h12, hr⟩ |
    ⟨tls, h12, hr⟩⟩⟩⟩⟩⟩⟩⟩⟩⟩⟩⟩⟩
  all_goals rw [hr]
  all_goals simp only [List.mem_append, List.mem_cons, List.mem_singleton, List.not_mem_nil,
    mem_logCalls_startup, mem_bootCalls_startup, mem_supervise_startup,
    Event.isStartupAction, false_or, or_false, reduceCtorEq, false_and,
    or_self, Event.RunClientServer.injEq, Event.RunMarbleServer.injEq, false_implies,
    implies_true, and_self, and_imp]
  refine ⟨?_, ?_⟩
  · intro mux addr tls1 lg1 hmux haddr htls hlg
    subst hmux haddr htls hlg
    exact ⟨core, h12, precedes_append_right (precedes_append_left _
      ⟨[_, _, _, _, _, _, _, _, _], [], _, rfl⟩) _⟩
  · intro core1 addr lg1 hcore haddr hlg
    subst hcore haddr hlg
    exact ⟨_, _, _, precedes_append_right (precedes_append_left _
      ⟨[_, _, _, _, _, _, _, _, _, _], [_], _, rfl⟩) _⟩

/-- C5: when no start-up step fails, the calls of `run` before the loop are exactly the
logging and environment calls, then: create the seal directory, construct the sealer,
construct the Core from the validator and issuer given to `run`, launch the etcd
server, create the mux, get the TLS configuration of the Core, launch the client server
with that TLS configuration, launch the marble server (with the log lines in between);
restricted to the seven kinds of start-up step this is the sequence of the claim.  In
every execution, a launched client server was given a TLS configuration that
`GetTLSConfig` returned before, and a launched marble server was launched after the
client server. -/
theorem startup_sequence (w : World) (cfg : config.Undeclared)
    (v : Validator) (i : Issuer) (k : List Nat) (p : String)
    (lg : Logger) (sealDir0 dns clientAddr meshAddr nodeName ns clusterName sizeString : String)
    (size : Int) (core : Core) (tls : TLSConfig)
    (h0 : w.newLogger (os.Getenv w.environ config.DevMode = "1") = .ok lg)
    (h1 : w.environ config.SealDir = some sealDir0)
    (h2 : w.environ config.DNSNames = some dns)
    (h3 : w.environ config.ClientAddr = some clientAddr)
    (h4 : w.environ config.MeshAddr = some meshAddr)
    (h5 : w.environ cfg.EtcdNodeName = some nodeName)
    (h6 : w.environ cfg.EtcdNamespace = some ns)
    (h7 : w.environ cfg.EtcdClusterName = some clusterName)
    (h8 : w.environ cfg.EtcdClusterSize = some sizeString)
    (h9 : strconv.Atoi sizeString = .ok size)
    (h10 : w.MkdirAll (w.filepathJoin p sealDir0) 0o700 = none)
    (h11 : w.NewCore (strings.Split dns ',') v i
      (w.NewAESGCMSealer (w.filepathJoin p sealDir0) k) lg = .ok core)
    (h12 : w.GetTLSConfig core = .ok tls) :
    (run w cfg v i k p).trace =
      bootCalls w cfg 8 ++ [.Atoi sizeString,
        .Info "creating the Core object" [],
        .MkdirAll (w.filepathJoin p sealDir0) 0o700,
        .NewAESGCMSealer (w.filepathJoin p sealDir0) k,
        .NewCore (strings.Split dns ',') v i
          (w.NewAESGCMSealer (w.filepathJoin p sealDir0) k) lg,
        .Info "starting the etcd server" [],
        .RunEtcdServer nodeName ns clusterName size
          (os.Getenv w.environ config.DevMode = "1") lg,
        .Info "starting the client server" [],
        .CreateServeMux core,
        .GetTLSConfig core,
        .RunClientServer (w.CreateServeMux core) clientAddr tls lg,
        .Info "starting the marble server" [],
        .RunMarbleServer core meshAddr lg] ++ (supervise w.timeline).trace ∧
    (run w cfg v i k p).trace.filter Event.isStartupStep =
      [.MkdirAll (w.filepathJoin p sealDir0) 0o700,
        .NewAESGCMSealer (w.filepathJoin p sealDir0) k,
        .NewCore (strings.Split dns ',') v i
          (w.NewAESGCMSealer (w.filepathJoin p sealDir0) k) lg,
        .RunEtcdServer nodeName ns clusterName size
          (os.Getenv w.environ config.DevMode = "1") lg,
        .GetTLSConfig core,
        .RunClientServer (w.CreateServeMux core) clientAddr tls lg,
        .RunMarbleServer core meshAddr lg] ∧
    (∀ mux addr tls1 lg1,
      Event.RunClientServer mux addr tls1 lg1 ∈ (run w cfg v i k p).trace →
      ∃ core1, w.GetTLSConfig core1 = .ok tls1 ∧
        precedes (.GetTLSConfig core1) (.RunClientServer mux addr tls1 lg1)
          (run w cfg v i k p).trace) ∧
    (∀ core1 addr lg1, Event.RunMarbleServer core1 addr lg1 ∈ (run w cfg v i k p).trace →
      ∃ mux caddr tls1, precedes (.RunClientServer mux caddr tls1 lg1)
        (.RunMarbleServer core1 addr lg1) (run w cfg v i k p).trace) := by
  have hr : (run w cfg v i k p).trace =
      bootCalls w cfg 8 ++ [.Atoi sizeString,
        .Info "creating the Core object" [],
        .MkdirAll (w.filepathJoin p sealDir0) 0o700,
        .NewAESGCMSealer (w.filepathJoin p sealDir0) k,
        .NewCore (strings.Split dns ',') v i
          (w.NewAESGCMSealer (w.filepathJoin p sealDir0) k) lg,
        .Info "starting the etcd server" [],
        .RunEtcdServer nodeName ns clusterName size
          (os.Getenv w.environ config.DevMode = "1") lg,
        .Info "starting the client server" [],
        .CreateServeMux core,
        .GetTLSConfig core,
        .RunClientServer (w.CreateServeMux core) clientAddr tls lg,
        .Info "starting the marble server" [],
        .RunMarbleServer core meshAddr lg] ++ (supervise w.timeline).trace := by
    unfold run
    simp only [util.MustGetenv, h0, h1, h2, h3, h4, h5, h6, h7, h8, h9, h10, h11, h12]
    simp [bootCalls, logCalls, requiredNames, loggerCall]
  refine ⟨hr, ?_, (launch_order w cfg v i k p).1, (launch_order w cfg v i k p).2⟩
  rw [hr, List.filter_append, List.filter_append,
    filter_step_eq_nil (fun e he => bootCalls_not_startup he),
    filter_step_eq_nil (fun e he => supervise_not_startup _ he)]
  simp [Event.isStartupStep]

/-- Witness for C5: the sample world in which every step succeeds. -/
theorem startup_sequence_witness :
    (run (goodWorld []) sampleCfg ⟨7⟩ ⟨8⟩ [1, 2] "/data").trace.filter Event.isStartupStep =
      [.MkdirAll "/data/seal" 0o700,
        .NewAESGCMSealer "/data/seal" [1, 2],
        .NewCore ["a", " b"] ⟨7⟩ ⟨8⟩ ⟨1⟩ ⟨0⟩,
        .RunEtcdServer "node0" "default" "cluster" 3 false ⟨0⟩,
        .GetTLSConfig ⟨2⟩,
        .RunClientServer ⟨3⟩ "localhost:25555" ⟨4⟩ ⟨0⟩,
        .RunMarbleServer ⟨2⟩ "localhost:2001" ⟨0⟩] :=
  (startup_sequence (goodWorld []) sampleCfg ⟨7⟩ ⟨8⟩ [1, 2] "/data"
    ⟨0⟩ "seal" "a, b" "localhost:25555" "localhost:2001" "node0" "default" "cluster" "3"
    3 ⟨2⟩ ⟨4⟩ rfl rfl rfl rfl rfl rfl rfl rfl rfl rfl rfl rfl rfl).2.1

/-! ## The DNS names (C10) -/

theorem split_join (s : String) : strings.Join (strings.Split s ',') "," = s := by
  apply String.ext
  rw [strings.Split, join_mk]
  exact splitChars_intercalate ',' s.data

theorem newCore_names (w : World) (cfg : config.Undeclared)
    (v : Validator) (i : Issuer) (k : List Nat) (p : String) (s : String)
    (hs : w.environ config.DNSNames = some s) :
    ∀ names v1 i1 sl lg, Event.NewCore names v1 i1 sl lg ∈ (run w cfg v i k p).trace →
      names = strings.Split s ',' ∧ v1 = v ∧ i1 = i := by
  rcases run_cases w cfg v i k p with
    ⟨err, h0, hr⟩ | ⟨lg, h0, ⟨h1, hr⟩ | ⟨sealDir0, h1, ⟨h2, hr⟩ | ⟨dns, h2, ⟨h3, hr⟩ |
    ⟨clientAddr, h3, ⟨h4, hr⟩ | ⟨meshAddr, h4, ⟨h5, hr⟩ | ⟨nodeName, h5, ⟨h6, hr⟩ |
    ⟨ns, h6, ⟨h7, hr⟩ | ⟨clusterName, h7, ⟨h8, hr⟩ | ⟨sizeString, h8, ⟨err, h9, hr⟩ |
    ⟨size, h9, ⟨err, h10, hr⟩ | ⟨h10, ⟨err, h11, hr⟩ | ⟨core, h11, ⟨err, h12, hr⟩ |
    ⟨tls, h12, hr⟩⟩⟩⟩⟩⟩⟩⟩⟩⟩⟩⟩⟩
  all_goals rw [hr]
  all_goals simp only [List.mem_append, List.mem_cons, List.mem_singleton, List.not_mem_nil,
    mem_logCalls_startup, mem_bootCalls_startup, mem_supervise_startup,
    Event.isStartupAction, false_or, or_false, reduceCtorEq, false_and,
    or_self, Event.NewCore.injEq, false_implies, implies_true, and_imp]
  all_goals
    intro names v1 i1 sl lg1 hn hv hi _ _
    rw [hs] at h2
    cases h2
    exact ⟨hn, hv, hi⟩

/-- C10: for a DNS-names setting `s`, every `core.NewCore` call of `run` is passed the
comma-split of `s` (with the validator and issuer of `run`); this list is non-empty, no
name in it contains a comma, it has one more element than `s` has commas, and joining it
with `","` gives back `s`: the empty string gives the single name `""`, and `"a, b"`
gives `"a"` and `" b"`. -/
theorem dns_names_are_the_comma_split (w : World) (cfg : config.Undeclared)
    (v : Validator) (i : Issuer) (k : List Nat) (p : String) (s : String)
    (hs : w.environ config.DNSNames = some s) :
    (∀ names v1 i1 sl lg, Event.NewCore names v1 i1 sl lg ∈ (run w cfg v i k p).trace →
      names = strings.Split s ',') ∧
    strings.Split s ',' ≠ [] ∧
    (∀ name ∈ strings.Split s ',', strings.ContainsRune name ',' = false) ∧
    (strings.Split s ',').length = strings.Count s ',' + 1 ∧
    strings.Join (strings.Split s ',') "," = s ∧
    strings.Split "" ',' = [""] ∧
    strings.Split "a, b" ',' = ["a", " b"] := by
  refine ⟨fun names v1 i1 sl lg h => (newCore_names w cfg v i k p s hs names v1 i1 sl lg h).1,
    ?_, ?_, ?_, split_join s, by decide, by decide⟩
  · simp [strings.Split, splitChars_ne_nil]
  · intro name hname
    obtain ⟨piece, hp, rfl⟩ := List.mem_map.1 hname
    have := splitChars_not_mem ',' s.toList piece hp
    simpa [strings.ContainsRune] using this
  · simp [strings.Split, strings.Count, splitChars_length]

/-- Witness for C10: the setting `"a, b"` in the sample world. -/
theorem dns_names_are_the_comma_split_witness :
    Event.NewCore ["a", " b"] ⟨7⟩ ⟨8⟩ ⟨1⟩ ⟨0⟩ ∈
      (run (goodWorld []) sampleCfg ⟨7⟩ ⟨8⟩ [1, 2] "/data").trace ∧
    ["a", " b"] = strings.Split "a, b" ',' ∧
    strings.Join (strings.Split "a, b" ',') "," = "a, b" ∧
    (strings.Split "a, b" ',').length = strings.Count "a, b" ',' + 1 :=
  ⟨by decide,
    (dns_names_are_the_comma_split (goodWorld []) sampleCfg ⟨7⟩ ⟨8⟩ [1, 2] "/data" "a, b" rfl).1
      ["a", " b"] ⟨7⟩ ⟨8⟩ ⟨1⟩ ⟨0⟩ (by decide),
    (dns_names_are_the_comma_split (goodWorld []) sampleCfg ⟨7⟩ ⟨8⟩ [1, 2] "/data" "a, b"
      rfl).2.2.2.2.1,
    (dns_names_are_the_comma_split (goodWorld []) sampleCfg ⟨7⟩ ⟨8⟩ [1, 2] "/data" "a, b"
      rfl).2.2.2.1⟩

/-! ## Missing values (C3) -/

theorem supervise_exit_cases (tl : List Occurrence) :
    (supervise tl).exit = .waiting ∨ (∃ e, (supervise tl).exit = .panic e) ∨
      (supervise tl).exit = .returned := by
  rcases supervise_split tl with hno | ⟨pre, err, rest, rfl, hpre⟩
  · exact Or.inl (supervise_no_err tl hno)
  · rw [supervise_first_err pre rest err hpre]
    cases err with
    | none => exact Or.inr (Or.inr rfl)
    | some e => exact Or.inr (Or.inl ⟨e, rfl⟩)

/-- A fatal `MustGetenv` names a required variable that is not set. -/
theorem envFatal_missing (w : World) (cfg : config.Undeclared)
    (v : Validator) (i : Issuer) (k : List Nat) (p : String) (m : String)
    (h : (run w cfg v i k p).exit = .envFatal m) :
    m ∈ requiredNames cfg ∧ w.environ m = none := by
  rcases run_cases w cfg v i k p with
    ⟨err, h0, hr⟩ | ⟨lg, h0, ⟨h1, hr⟩ | ⟨sealDir0, h1, ⟨h2, hr⟩ | ⟨dns, h2, ⟨h3, hr⟩ |
    ⟨clientAddr, h3, ⟨h4, hr⟩ | ⟨meshAddr, h4, ⟨h5, hr⟩ | ⟨nodeName, h5, ⟨h6, hr⟩ |
    ⟨ns, h6, ⟨h7, hr⟩ | ⟨clusterName, h7, ⟨h8, hr⟩ | ⟨sizeString, h8, ⟨err, h9, hr⟩ |
    ⟨size, h9, ⟨err, h10, hr⟩ | ⟨h10, ⟨err, h11, hr⟩ | ⟨core, h11, ⟨err, h12, hr⟩ |
    ⟨tls, h12, hr⟩⟩⟩⟩⟩⟩⟩⟩⟩⟩⟩⟩⟩
  all_goals rw [hr] at h
  all_goals try (cases h; done)
  all_goals try (injection h with h; subst h; exact ⟨by simp [requiredNames], by assumption⟩)
  rcases supervise_exit_cases w.timeline with h' | ⟨e, h'⟩ | h' <;>
    · simp only at h
      rw [h'] at h
      cases h

/-- C3: when a required value is missing, `run` ends fatally and no start-up action
(seal directory, sealer, Core, mux, TLS configuration, server launch) occurs; if the
logger was constructed, `run` ends in the fatal `MustGetenv` of the first missing name in
reading order, having read the names up to that one and no further.  A fatal
`MustGetenv` only ever names a required name that is not set: in a world where the eight
required names are set there is none, whether the development flag is set or not. -/
theorem missing_required_value_is_fatal (w : World) (cfg : config.Undeclared)
    (v : Validator) (i : Issuer) (k : List Nat) (p : String) (n : String)
    (hn : n ∈ requiredNames cfg) (hmiss : w.environ n = none) :
    (run w cfg v i k p).exit.fatal = true ∧
    (∀ e ∈ (run w cfg v i k p).trace, e.isStartupAction = false) ∧
    (∀ lg, w.newLogger (os.Getenv w.environ config.DevMode = "1") = .ok lg →
      ∃ m, (requiredNames cfg).find? (fun a => (w.environ a).isNone) = some m ∧
        (run w cfg v i k p).exit = .envFatal m ∧
        (run w cfg v i k p).trace = bootCalls w cfg
          ((requiredNames cfg).findIdx (fun a => (w.environ a).isNone) + 1)) ∧
    (∀ w2 : World, (∀ a ∈ requiredNames cfg, w2.environ a ≠ none) →
      ∀ m, (run w2 cfg v i k p).exit ≠ .envFatal m) := by
  refine ⟨?_, ?_, ?_, fun w2 hall m hm =>
    hall m (envFatal_missing w2 cfg v i k p m hm).1 (envFatal_missing w2 cfg v i k p m hm).2⟩
  all_goals
    rcases run_cases w cfg v i k p with
      ⟨err, h0, hr⟩ | ⟨lg, h0, ⟨h1, hr⟩ | ⟨sealDir0, h1, ⟨h2, hr⟩ | ⟨dns, h2, ⟨h3, hr⟩ |
      ⟨clientAddr, h3, ⟨h4, hr⟩ | ⟨meshAddr, h4, ⟨h5, hr⟩ | ⟨nodeName, h5, ⟨h6, hr⟩ |
      ⟨ns, h6, ⟨h7, hr⟩ | ⟨clusterName, h7, ⟨h8, hr⟩ | ⟨sizeString, h8, ⟨err, h9, hr⟩ |
      ⟨size, h9, ⟨err, h10, hr⟩ | ⟨h10, ⟨err, h11, hr⟩ | ⟨core, h11, ⟨err, h12, hr⟩ |
      ⟨tls, h12, hr⟩⟩⟩⟩⟩⟩⟩⟩⟩⟩⟩⟩⟩
  all_goals rw [hr]
  all_goals try (exact rfl)
  all_goals try (exact fun e he => logCalls_not_startup he)
  all_goals try (exact fun e he => bootCalls_not_startup he)
  all_goals try
    (intro lg1 _
     exact ⟨_, by simp [requiredNames, List.find?, *], rfl,
       by simp [requiredNames, List.findIdx_cons, *]⟩)
  all_goals try (rw [h0]; intro lg1 hlg; cases hlg; done)
  all_goals
    exfalso
    simp only [requiredNames, List.mem_cons, List.mem_singleton, List.not_mem_nil,
      or_false] at hn
    rcases hn with rfl | rfl | rfl | rfl | rfl | rfl | rfl | rfl <;> simp_all

/-- Witness for C3: the cluster name is not set (and neither is the development flag). -/
theorem missing_required_value_is_fatal_witness :
    sampleCfg.EtcdClusterName ∈ requiredNames sampleCfg ∧
    (sampleWorld (sampleEnviron [sampleCfg.EtcdClusterName] "a, b" "3") none (.ok ⟨2⟩)
      (.ok ⟨4⟩) []).environ sampleCfg.EtcdClusterName = none ∧
    (run (sampleWorld (sampleEnviron [sampleCfg.EtcdClusterName] "a, b" "3") none (.ok ⟨2⟩)
      (.ok ⟨4⟩) []) sampleCfg ⟨7⟩ ⟨8⟩ [1, 2] "/data").exit.fatal = true ∧
    (∀ e ∈ (run (sampleWorld (sampleEnviron [sampleCfg.EtcdClusterName] "a, b" "3") none
      (.ok ⟨2⟩) (.ok ⟨4⟩) []) sampleCfg ⟨7⟩ ⟨8⟩ [1, 2] "/data").trace,
      e.isStartupAction = false) ∧
    (run (sampleWorld (sampleEnviron [sampleCfg.EtcdClusterName] "a, b" "3") none (.ok ⟨2⟩)
      (.ok ⟨4⟩) []) sampleCfg ⟨7⟩ ⟨8⟩ [1, 2] "/data").exit =
      .envFatal sampleCfg.EtcdClusterName ∧
    (goodWorld [.errChan none]).environ config.DevMode = none ∧
    (run (goodWorld [.errChan none]) sampleCfg ⟨7⟩ ⟨8⟩ [1, 2] "/data").exit = .returned := by
  have h := missing_required_value_is_fatal
    (sampleWorld (sampleEnviron [sampleCfg.EtcdClusterName] "a, b" "3") none (.ok ⟨2⟩)
      (.ok ⟨4⟩) []) sampleCfg ⟨7⟩ ⟨8⟩ [1, 2] "/data" sampleCfg.EtcdClusterName
    (by decide) (by decide)
  exact ⟨by decide, by decide, h.1, h.2.1, by decide, by decide, by decide⟩

/-! ## The cluster size (C8) -/

/-- C8 as stated fails: the sizes `"0"` and `"-3"` are accepted by `strconv.Atoi`; with
either, `run` creates the seal directory, launches all three servers, handing the number
to the etcd server, and is on no fatal path. -/
theorem zero_or_negative_cluster_size_is_accepted :
    strconv.Atoi "0" = .ok 0 ∧ strconv.Atoi "-3" = .ok (-3) ∧
    (run (sampleWorld (sampleEnviron [] "a, b" "0") none (.ok ⟨2⟩) (.ok ⟨4⟩) [])
      sampleCfg ⟨7⟩ ⟨8⟩ [1, 2] "/data").exit.fatal = false ∧
    Event.MkdirAll "/data/seal" 0o700 ∈
      (run (sampleWorld (sampleEnviron [] "a, b" "0") none (.ok ⟨2⟩) (.ok ⟨4⟩) [])
        sampleCfg ⟨7⟩ ⟨8⟩ [1, 2] "/data").trace ∧
    Event.RunEtcdServer "node0" "default" "cluster" 0 false ⟨0⟩ ∈
      (run (sampleWorld (sampleEnviron [] "a, b" "0") none (.ok ⟨2⟩) (.ok ⟨4⟩) [])
        sampleCfg ⟨7⟩ ⟨8⟩ [1, 2] "/data").trace ∧
    launched (run (sampleWorld (sampleEnviron [] "a, b" "0") none (.ok ⟨2⟩) (.ok ⟨4⟩) [])
      sampleCfg ⟨7⟩ ⟨8⟩ [1, 2] "/data").trace = [.etcd, .client, .marble] ∧
    (run (sampleWorld (sampleEnviron [] "a, b" "-3") none (.ok ⟨2⟩) (.ok ⟨4⟩) [])
      sampleCfg ⟨7⟩ ⟨8⟩ [1, 2] "/data").exit.fatal = false ∧
    launched (run (sampleWorld (sampleEnviron [] "a, b" "-3") none (.ok ⟨2⟩) (.ok ⟨4⟩) [])
      sampleCfg ⟨7⟩ ⟨8⟩ [1, 2] "/data").trace = [.etcd, .client, .marble] :=
  ⟨rfl, rfl, by decide, by decide, by decide, by decide, by decide, by decide⟩

/-- C8, amended: when all required values are present and `strconv.Atoi` rejects the
cluster-size value (it is not an optionally signed, non-empty run of decimal digits, as
the empty string and `"three"`, or is outside the range of `int`), `run` ends fatally
and no start-up action occurs; if the logger was constructed, it panics with the error
of `strconv.Atoi` right after the call. -/
theorem rejected_cluster_size_panics (w : World) (cfg : config.Undeclared)
    (v : Validator) (i : Issuer) (k : List Nat) (p : String) (s : String) (err : Error)
    (hall : ∀ a ∈ requiredNames cfg, w.environ a ≠ none)
    (hsize : w.environ cfg.EtcdClusterSize = some s)
    (hbad : strconv.Atoi s = .error err) :
    (run w cfg v i k p).exit.fatal = true ∧
    (∀ e ∈ (run w cfg v i k p).trace, e.isStartupAction = false) ∧
    (∀ lg, w.newLogger (os.Getenv w.environ config.DevMode = "1") = .ok lg →
      (run w cfg v i k p).exit = .panic err ∧
      (run w cfg v i k p).trace = bootCalls w cfg 8 ++ [.Atoi s, .Sync]) ∧
    strconv.Atoi "" = .error (.numSyntax "Atoi" "") ∧
    strconv.Atoi "three" = .error (.numSyntax "Atoi" "three") ∧
    strconv.Atoi "9223372036854775808" = .error (.numRange "Atoi" "9223372036854775808") := by
  refine ⟨?_, ?_, ?_, rfl, rfl, rfl⟩
  all_goals
    rcases run_cases w cfg v i k p with
      ⟨e0, h0, hr⟩ | ⟨lg, h0, ⟨h1, hr⟩ | ⟨sealDir0, h1, ⟨h2, hr⟩ | ⟨dns, h2, ⟨h3, hr⟩ |
      ⟨clientAddr, h3, ⟨h4, hr⟩ | ⟨meshAddr, h4, ⟨h5, hr⟩ | ⟨nodeName, h5, ⟨h6, hr⟩ |
      ⟨ns, h6, ⟨h7, hr⟩ | ⟨clusterName, h7, ⟨h8, hr⟩ | ⟨sizeString, h8, ⟨e9, h9, hr⟩ |
      ⟨size, h9, ⟨e10, h10, hr⟩ | ⟨h10, ⟨e11, h11, hr⟩ | ⟨core, h11, ⟨e12, h12, hr⟩ |
      ⟨tls, h12, hr⟩⟩⟩⟩⟩⟩⟩⟩⟩⟩⟩⟩⟩
  all_goals try (rw [hsize] at h8; cases h8; rw [hbad] at h9; cases h9)
  all_goals rw [hr]
  all_goals try (exact rfl)
  all_goals try (exact fun e he => logCalls_not_startup he)
  all_goals try (rw [h0]; intro lg1 hlg; cases hlg; done)
  all_goals try (exact fun lg1 _ => ⟨rfl, rfl⟩)
  all_goals try
    (intro e he
     rcases List.mem_append.1 he with he | he
     · exact bootCalls_not_startup he
     · simp only [List.mem_cons, List.mem_singleton, List.not_mem_nil, or_false] at he
       rcases he with rfl | rfl <;> rfl)
  all_goals
    exfalso
    first
      | exact hall _ (by simp [requiredNames]) h1
      | exact hall _ (by simp [requiredNames]) h2
      | exact hall _ (by simp [requiredNames]) h3
      | exact hall _ (by simp [requiredNames]) h4
      | exact hall _ (by simp [requiredNames]) h5
      | exact hall _ (by simp [requiredNames]) h6
      | exact hall _ (by simp [requiredNames]) h7
      | exact hall _ (by simp [requiredNames]) h8

/-- Witness for amended C8: the cluster size `"three"`. -/
theorem rejected_cluster_size_panics_witness :
    (∀ a ∈ requiredNames sampleCfg, sampleEnviron [] "a, b" "three" a ≠ none) ∧
    strconv.Atoi "three" = .error (.numSyntax "Atoi" "three") ∧
    (run (sampleWorld (sampleEnviron [] "a, b" "three") none (.ok ⟨2⟩) (.ok ⟨4⟩) [])
      sampleCfg ⟨7⟩ ⟨8⟩ [1, 2] "/data").exit.fatal = true ∧
    (run (sampleWorld (sampleEnviron [] "a, b" "three") none (.ok ⟨2⟩) (.ok ⟨4⟩) [])
      sampleCfg ⟨7⟩ ⟨8⟩ [1, 2] "/data").exit = .panic (.numSyntax "Atoi" "three") := by
  have hall : ∀ a ∈ requiredNames sampleCfg, sampleEnviron [] "a, b" "three" a ≠ none := by
    decide
  have h := rejected_cluster_size_panics
    (sampleWorld (sampleEnviron [] "a, b" "three") none (.ok ⟨2⟩) (.ok ⟨4⟩) [])
    sampleCfg ⟨7⟩ ⟨8⟩ [1, 2] "/data" "three" (.numSyntax "Atoi" "three") hall rfl rfl
  exact ⟨hall, rfl, h.1, (h.2.2.1 ⟨0⟩ rfl).1⟩

/-! ## Package `config` against the references of `run.go` -/

/-- C6: of the nine identifiers `run.go` reads from package `config`, the five
`DevMode`, `SealDir`, `DNSNames`, `ClientAddr`, `MeshAddr` are declared by `config.go`
and the four `EtcdNodeName`, `EtcdNamespace`, `EtcdClusterName`, `EtcdClusterSize`
are not. -/
theorem config_misses_etcd_constants :
    config.lookup "EtcdNodeName" = none ∧
    runConfigRefs.filter (fun ident => (config.lookup ident).isNone) =
      ["EtcdNodeName", "EtcdNamespace", "EtcdClusterName", "EtcdClusterSize"] ∧
    runConfigRefs.filter (fun ident => (config.lookup ident).isSome) =
      ["DevMode", "SealDir", "DNSNames", "ClientAddr", "MeshAddr"] ∧
    config.declared.map Prod.fst =
      ["MeshAddr", "ClientAddr", "PromAddr", "DNSNames", "SealDir", "DevMode"] := by
  decide

end Marblerun
